import Mathlib

/-!
Verification of the rigid-body inertial-property pipeline of the Taks_T1
asset-preparation scripts (`calculate_inertia.py` and
`calculate_inertia_from_stl.py`).

The numeric core is embedded shallowly: Python floats are modelled as exact
rationals `ℚ` (for the executable pipeline) and as reals `ℝ` (for the
eigendecomposition post-processing, which involves square roots).  Python
exceptions are modelled with `Except`: an exception raised by a library call
or an index access becomes an `Except.error` that propagates exactly as the
exception would.
-/

namespace GenieSim

/-- Rational 3-vectors, modelling small numpy arrays of floats. -/
abbrev Vec3 := Fin 3 → ℚ

/-- Rational 3×3 matrices, modelling numpy 3×3 arrays of floats. -/
abbrev Mat3 := Matrix (Fin 3) (Fin 3) ℚ

/-- Scalar-first quaternion record (MuJoCo convention `[w, x, y, z]`),
polymorphic in the scalar type so the same shape serves the rational
pipeline and the real-valued diagonalization development. -/
structure Quat (α : Type) where
  w : α
  x : α
  y : α
  z : α
deriving DecidableEq

/-- Exceptions the Python pipeline can raise: the explicit
`ValueError(f"Unknown shape: ...")` in `calculate_inertia`, an
`IndexError` from accessing `dims[i]` past the end of the list, the
`ValueError` scipy raises in `Rotation.from_quat` on a zero-norm
quaternion, and an I/O error from the external mesh loader
(`trimesh.load` on an unreadable file). -/
inductive PyError
  | unknownShape (s : String)
  | indexError
  | zeroNormQuat
  | ioError
deriving DecidableEq

/-- Squared norm of a quaternion (`w² + x² + y² + z²`). -/
def quatNormSq {α : Type} [CommRing α] (q : Quat α) : α :=
  q.w ^ 2 + q.x ^ 2 + q.y ^ 2 + q.z ^ 2

/-- The homogeneous (degree-2) quaternion-to-rotation-matrix form: for a
quaternion of squared norm `N`, scipy's `Rotation.as_matrix` applied to the
normalized quaternion equals `N⁻¹ • quatRotHom q`, because every entry of
the standard unit-quaternion rotation-matrix formula is a quadratic form in
the components.  Entries follow scipy's `as_matrix` layout exactly. -/
def quatRotHom {α : Type} [CommRing α] (q : Quat α) : Matrix (Fin 3) (Fin 3) α :=
  Matrix.of ![
    ![q.w ^ 2 + q.x ^ 2 - q.y ^ 2 - q.z ^ 2, 2 * (q.x * q.y - q.z * q.w),
      2 * (q.x * q.z + q.y * q.w)],
    ![2 * (q.x * q.y + q.z * q.w), q.w ^ 2 - q.x ^ 2 + q.y ^ 2 - q.z ^ 2,
      2 * (q.y * q.z - q.x * q.w)],
    ![2 * (q.x * q.z - q.y * q.w), 2 * (q.y * q.z + q.x * q.w),
      q.w ^ 2 - q.x ^ 2 - q.y ^ 2 + q.z ^ 2]]

/-- Embedding of `quat_to_rotation_matrix` (calculate_inertia.py, lines
33-40): scipy's `Rotation.from_quat` raises on a zero-norm quaternion and
otherwise normalizes, so `as_matrix` returns the homogeneous form divided
by the squared norm. -/
def quat_to_rotation_matrix (q : Quat ℚ) : Except PyError Mat3 :=
  if quatNormSq q = 0 then Except.error PyError.zeroNormQuat
  else Except.ok ((quatNormSq q)⁻¹ • quatRotHom q)

/-- Embedding of `rotate_inertia` (calculate_inertia.py, lines 55-79):
`I_body = R @ diag(diag_inertia) @ R.T`. -/
def rotate_inertia (diag_inertia : Vec3) (quat : Quat ℚ) : Except PyError Mat3 := do
  let R ← quat_to_rotation_matrix quat
  pure (R * Matrix.diagonal diag_inertia * R.transpose)

/-- Embedding of `inertia_tensor_to_urdf` (calculate_inertia.py, lines
82-94): extract `(ixx, ixy, ixz, iyy, iyz, izz)` from a 3×3 tensor. -/
def inertia_tensor_to_urdf (I : Mat3) : ℚ × ℚ × ℚ × ℚ × ℚ × ℚ :=
  (I 0 0, I 0 1, I 0 2, I 1 1, I 1 2, I 2 2)

/-- Rebuild a symmetric 3×3 tensor from the six URDF components; used to
state that `inertia_tensor_to_urdf` loses no information on symmetric
tensors. -/
def urdf_to_inertia_tensor (c : ℚ × ℚ × ℚ × ℚ × ℚ × ℚ) : Mat3 :=
  Matrix.of ![![c.1, c.2.1, c.2.2.1],
              ![c.2.1, c.2.2.2.1, c.2.2.2.2.1],
              ![c.2.2.1, c.2.2.2.2.1, c.2.2.2.2.2]]

/-- Embedding of `inertia_box` (calculate_inertia.py, lines 97-104). -/
def inertia_box (mass lx ly lz : ℚ) : Vec3 :=
  ![1 / 12 * mass * (ly ^ 2 + lz ^ 2),
    1 / 12 * mass * (lx ^ 2 + lz ^ 2),
    1 / 12 * mass * (lx ^ 2 + ly ^ 2)]

/-- Embedding of `inertia_cylinder_z` (calculate_inertia.py, lines 107-111). -/
def inertia_cylinder_z (mass radius height : ℚ) : Vec3 :=
  ![1 / 12 * mass * (3 * radius ^ 2 + height ^ 2),
    1 / 12 * mass * (3 * radius ^ 2 + height ^ 2),
    1 / 2 * mass * radius ^ 2]

/-- Embedding of `inertia_cylinder_y` (calculate_inertia.py, lines 114-118). -/
def inertia_cylinder_y (mass radius height : ℚ) : Vec3 :=
  ![1 / 12 * mass * (3 * radius ^ 2 + height ^ 2),
    1 / 2 * mass * radius ^ 2,
    1 / 12 * mass * (3 * radius ^ 2 + height ^ 2)]

/-- Embedding of `inertia_sphere` (calculate_inertia.py, lines 121-124). -/
def inertia_sphere (mass radius : ℚ) : Vec3 :=
  ![2 / 5 * mass * radius ^ 2,
    2 / 5 * mass * radius ^ 2,
    2 / 5 * mass * radius ^ 2]

/-- Identifier of a violated triangle inequality, as named in the printed
diagnostics of both `validate_inertia` functions. -/
inductive ViolatedPair
  | xxyy_lt_zz
  | yyzz_lt_xx
  | zzxx_lt_yy
deriving DecidableEq

/-- Embedding of `validate_inertia` (calculate_inertia.py, lines 127-139).
The strict comparisons carry no tolerance.  The printed warnings are
modelled as the returned list of violated pairs, in emission order. -/
def validate_inertia (ixx iyy izz : ℚ) : Bool × List ViolatedPair :=
  let s0 : Bool × List ViolatedPair := (true, [])
  let s1 := if ixx + iyy < izz then (false, s0.2 ++ [ViolatedPair.xxyy_lt_zz]) else s0
  let s2 := if iyy + izz < ixx then (false, s1.2 ++ [ViolatedPair.yyzz_lt_xx]) else s1
  let s3 := if izz + ixx < iyy then (false, s2.2 ++ [ViolatedPair.zzxx_lt_yy]) else s2
  s3

namespace FromStl

/-- Embedding of `validate_inertia` (calculate_inertia_from_stl.py, lines
130-143), which compares with an absolute tolerance `eps = 1e-10`. -/
def eps : ℚ := 1 / 10 ^ 10

/-- Embedding of `validate_inertia` (calculate_inertia_from_stl.py, lines
130-143): each triangle inequality is checked against `- eps`. -/
def validate_inertia (ixx iyy izz : ℚ) : Bool × List ViolatedPair :=
  let s0 : Bool × List ViolatedPair := (true, [])
  let s1 := if ixx + iyy < izz - eps then (false, s0.2 ++ [ViolatedPair.xxyy_lt_zz]) else s0
  let s2 := if iyy + izz < ixx - eps then (false, s1.2 ++ [ViolatedPair.yyzz_lt_xx]) else s1
  let s3 := if izz + ixx < iyy - eps then (false, s2.2 ++ [ViolatedPair.zzxx_lt_yy]) else s2
  s3

end FromStl

/-- One entry of the `all_links` table (calculate_inertia.py, lines
151-362): mass, shape tag (a plain string, as in the source), dimension
list, and optional orientation quaternion. -/
structure LinkData where
  mass : ℚ
  shape : String
  dims : List ℚ
  quat : Option (Quat ℚ) := none

/-- Python list indexing `dims[i]`: raises `IndexError` past the end. -/
def getDim (dims : List ℚ) (i : Nat) : Except PyError ℚ :=
  match dims.get? i with
  | some v => Except.ok v
  | none => Except.error PyError.indexError

/-- Result record of `calculate_inertia`: the diagonal moments, plus the
full tensor and the quaternion when the link carries one. -/
structure CalcResult where
  diag : Vec3
  full : Option Mat3
  quat : Option (Quat ℚ)
deriving DecidableEq

/-- The `if shape == ... / elif ... / else raise` dispatch of
`calculate_inertia` (calculate_inertia.py, lines 376-385). -/
def shapeDispatch (mass : ℚ) (shape : String) (dims : List ℚ) :
    Except PyError Vec3 :=
  if shape = "box" then do
    let d0 ← getDim dims 0
    let d1 ← getDim dims 1
    let d2 ← getDim dims 2
    pure (inertia_box mass d0 d1 d2)
  else if shape = "cylinder_z" then do
    let d0 ← getDim dims 0
    let d1 ← getDim dims 1
    pure (inertia_cylinder_z mass d0 d1)
  else if shape = "cylinder_y" then do
    let d0 ← getDim dims 0
    let d1 ← getDim dims 1
    pure (inertia_cylinder_y mass d0 d1)
  else if shape = "sphere" then do
    let d0 ← getDim dims 0
    pure (inertia_sphere mass d0)
  else Except.error (PyError.unknownShape shape)

/-- The `if "quat" in link_data` tail of `calculate_inertia`
(calculate_inertia.py, lines 388-393). -/
def quatStage (diag : Vec3) (qo : Option (Quat ℚ)) : Except PyError CalcResult :=
  match qo with
  | some q => do
      let full ← rotate_inertia diag q
      pure ⟨diag, some full, some q⟩
  | none => pure ⟨diag, none, none⟩

/-- Embedding of `calculate_inertia` (calculate_inertia.py, lines
365-393): dispatch on the shape string, computing the shape formula on the
indexed dimensions; unknown tags raise `ValueError(f"Unknown shape: ...")`;
when a quaternion is present the full tensor is computed by
`rotate_inertia`. -/
def calculate_inertia (link : LinkData) : Except PyError CalcResult := do
  let diag ← shapeDispatch link.mass link.shape link.dims
  quatStage diag link.quat

/-- The supported shape tags of `calculate_inertia`. -/
def supportedShapes : List String := ["box", "cylinder_z", "cylinder_y", "sphere"]

/-- Number of dimension-list entries each supported shape indexes. -/
def requiredDims (shape : String) : Nat :=
  if shape = "box" then 3 else if shape = "sphere" then 1 else 2

/-- Embedding of the batch loop of `main` (calculate_inertia.py, lines
396-418): iterate over the link table in order, computing each link's
inertia and recording it.  The loop body has no exception handler, so an
exception raised for one link propagates and the loop never reaches the
remaining links; this is modelled by the error short-circuiting of
`Except`. -/
def process_links : List (String × LinkData) →
    Except PyError (List (String × CalcResult))
  | [] => pure []
  | (name, data) :: rest => do
      let r ← calculate_inertia data
      let others ← process_links rest
      pure ((name, r) :: others)

/-- Model of the trimesh `Trimesh` object as used by
`compute_inertia_from_mesh`: signed volume, axis-aligned bounds, center of
mass (independent of density for a uniform-density solid), the moment of
inertia the mesh reports at density 1, and the current density setting
(a mutable attribute of the trimesh object; `moment_inertia` scales
linearly in it). -/
structure Mesh where
  volume : ℚ
  boundsLo : Vec3
  boundsHi : Vec3
  center_mass : Vec3
  inertiaUnit : Mat3
  density : ℚ

/-- Trimesh `moment_inertia` property: linear in the density setting. -/
def Mesh.moment_inertia (m : Mesh) : Mat3 := m.density • m.inertiaUnit

/-- Embedding of `compute_inertia_from_mesh`
(calculate_inertia_from_stl.py, lines 60-93).  The Python function sets
`mesh.density` in place when the volume is positive; the embedding returns
the updated mesh alongside the center of mass and tensor so that this
mutation is visible.  For non-positive volume it falls back to the
axis-aligned bounding box and the box formula. -/
def compute_inertia_from_mesh (mesh : Mesh) (mass : ℚ) : Mesh × Vec3 × Mat3 :=
  let mesh1 := if 0 < mesh.volume
    then { mesh with density := mass / mesh.volume } else mesh
  let com := mesh1.center_mass
  let inertia := mesh1.moment_inertia
  if mesh1.volume ≤ 0 then
    let size : Vec3 := fun i => mesh1.boundsHi i - mesh1.boundsLo i
    let comBox : Vec3 := fun i => (mesh1.boundsLo i + mesh1.boundsHi i) / 2
    let ixx := 1 / 12 * mass * (size 1 ^ 2 + size 2 ^ 2)
    let iyy := 1 / 12 * mass * (size 0 ^ 2 + size 2 ^ 2)
    let izz := 1 / 12 * mass * (size 0 ^ 2 + size 1 ^ 2)
    (mesh1, comBox, Matrix.diagonal ![ixx, iyy, izz])
  else
    (mesh1, com, inertia)

/-- The triangle-inequality property of a principal-moment triple: the sum
of any two moments bounds the third. -/
def satisfiesTriangle (v : Vec3) : Prop :=
  v 2 ≤ v 0 + v 1 ∧ v 0 ≤ v 1 + v 2 ∧ v 1 ≤ v 2 + v 0

/-- Concrete degenerate mesh with volume 0 and bounding box `(2, 2, 2)`,
for the fallback witness. -/
def C4_mesh0 : Mesh :=
  { volume := 0
    boundsLo := ![-1, -1, -1]
    boundsHi := ![1, 1, 1]
    center_mass := ![0, 0, 0]
    inertiaUnit := 0
    density := 1 }

/-- Concrete unit quaternion `(3/5, 4/5, 0, 0)` for the trace witness. -/
def C6_q0 : Quat ℚ := ⟨3/5, 4/5, 0, 0⟩

/-- Concrete diagonal moments for the symmetry witness. -/
def C10_d0 : Vec3 := ![1, 2, 3]

/-- Concrete non-unit quaternion for the symmetry witness. -/
def C10_q1 : Quat ℚ := ⟨1, 2, 3, 4⟩

/-- The full tensor `rotate_inertia` produces for `C10_d0` and `C10_q1`. -/
def C10_M1 : Mat3 :=
  ((quatNormSq C10_q1)⁻¹ • quatRotHom C10_q1) * Matrix.diagonal C10_d0 *
    ((quatNormSq C10_q1)⁻¹ • quatRotHom C10_q1).transpose

/-! ## Real-valued model of `diagonalize_inertia`

`diagonalize_inertia` (calculate_inertia_from_stl.py, lines 96-121) calls
`np.linalg.eigh` and scipy's `Rotation.from_matrix(...).as_quat()`.  The
eigendecomposition itself is a LAPACK floating-point routine; it is
modelled by its documented contract — it returns eigenvalues in ascending
order together with an orthonormal matrix of corresponding eigenvectors —
which the theorem takes as hypotheses on the pair `(vals, vecs)`.
Everything the Python function does with that pair is embedded below over
`ℝ` (the quaternion normalization involves a square root). -/

/-- Real 3×3 matrices. -/
abbrev Mat3R := Matrix (Fin 3) (Fin 3) ℝ

/-- Branch selector of scipy's `from_matrix`: the first index attaining
the maximum of `[m00, m11, m22, trace]` (`np.argmax` returns the first
maximum). -/
inductive Branch
  | b0
  | b1
  | b2
  | b3
deriving DecidableEq

/-- Model of `np.argmax([d0, d1, d2, d3])`: first index attaining the
maximum. -/
noncomputable def argmaxChoice (d0 d1 d2 d3 : ℝ) : Branch :=
  if d0 ≥ d1 ∧ d0 ≥ d2 ∧ d0 ≥ d3 then Branch.b0
  else if d1 ≥ d2 ∧ d1 ≥ d3 then Branch.b1
  else if d2 ≥ d3 then Branch.b2
  else Branch.b3

/-- Unnormalized quaternion of scipy `from_matrix` when `m00` is the first
maximum of `[m00, m11, m22, trace]` (branch `i = 0, j = 1, k = 2`),
already reordered scalar-first as the Python code does. -/
def quatFromMatBranch0 (M : Mat3R) : Quat ℝ :=
  ⟨M 2 1 - M 1 2,
   1 - (M 0 0 + M 1 1 + M 2 2) + 2 * M 0 0,
   M 1 0 + M 0 1,
   M 2 0 + M 0 2⟩

/-- Unnormalized quaternion of scipy `from_matrix`, branch `i = 1, j = 2,
k = 0`. -/
def quatFromMatBranch1 (M : Mat3R) : Quat ℝ :=
  ⟨M 0 2 - M 2 0,
   M 0 1 + M 1 0,
   1 - (M 0 0 + M 1 1 + M 2 2) + 2 * M 1 1,
   M 2 1 + M 1 2⟩

/-- Unnormalized quaternion of scipy `from_matrix`, branch `i = 2, j = 0,
k = 1`. -/
def quatFromMatBranch2 (M : Mat3R) : Quat ℝ :=
  ⟨M 1 0 - M 0 1,
   M 0 2 + M 2 0,
   M 1 2 + M 2 1,
   1 - (M 0 0 + M 1 1 + M 2 2) + 2 * M 2 2⟩

/-- Unnormalized quaternion of scipy `from_matrix` when the trace is the
maximum. -/
def quatFromMatBranch3 (M : Mat3R) : Quat ℝ :=
  ⟨1 + (M 0 0 + M 1 1 + M 2 2),
   M 2 1 - M 1 2,
   M 0 2 - M 2 0,
   M 1 0 - M 0 1⟩

/-- The unnormalized quaternion scipy's `from_matrix` builds before
dividing by its norm. -/
noncomputable def scipyFromMatrixUnnorm (M : Mat3R) : Quat ℝ :=
  match argmaxChoice (M 0 0) (M 1 1) (M 2 2) (M 0 0 + M 1 1 + M 2 2) with
  | Branch.b0 => quatFromMatBranch0 M
  | Branch.b1 => quatFromMatBranch1 M
  | Branch.b2 => quatFromMatBranch2 M
  | Branch.b3 => quatFromMatBranch3 M

/-- Division of a quaternion by its euclidean norm, as scipy's
`from_matrix` performs (`quat /= norm(quat)`). -/
noncomputable def quatNormalize (q : Quat ℝ) : Quat ℝ :=
  let n := Real.sqrt (quatNormSq q)
  ⟨q.w / n, q.x / n, q.y / n, q.z / n⟩

/-- The quaternion `diagonalize_inertia` extracts from a rotation matrix:
scipy `from_matrix` (branch construction plus normalization) followed by
the `[x,y,z,w] → [w,x,y,z]` reorder, which the branch constructions above
already incorporate. -/
noncomputable def scipyFromMatrixQuat (M : Mat3R) : Quat ℝ :=
  quatNormalize (scipyFromMatrixUnnorm M)

/-- The `if det < 0: eigenvectors[:, 0] *= -1` step of
`diagonalize_inertia`: negating column 0 is right-multiplication by
`diag(-1, 1, 1)`. -/
noncomputable def fixHandedness (vecs : Mat3R) : Mat3R :=
  if vecs.det < 0 then vecs * Matrix.diagonal ![-1, 1, 1] else vecs

/-- Model of `np.argsort` on three values (numpy uses insertion sort for
such small arrays, which is stable): position `k` holds the index of the
`k`-th smallest value, ties broken toward the smaller index. -/
noncomputable def argsort3 (v : Fin 3 → ℝ) : Fin 3 → Fin 3 :=
  if v 0 ≤ v 1 then
    if v 1 ≤ v 2 then id
    else if v 0 ≤ v 2 then ![0, 2, 1]
    else ![2, 0, 1]
  else
    if v 0 ≤ v 2 then ![1, 0, 2]
    else if v 1 ≤ v 2 then ![1, 2, 0]
    else ![2, 1, 0]

/-- Embedding of the post-`eigh` body of `diagonalize_inertia`
(calculate_inertia_from_stl.py, lines 104-121): fix the handedness of the
eigenvector matrix, sort eigenvalues ascending, permute the eigenvector
columns accordingly, and convert the resulting rotation matrix to a
scalar-first quaternion. -/
noncomputable def diagonalize_inertia_post (vals : Fin 3 → ℝ) (vecs : Mat3R) :
    (Fin 3 → ℝ) × Mat3R × Quat ℝ :=
  let fixed := fixHandedness vecs
  let idx := argsort3 vals
  let principal : Fin 3 → ℝ := fun j => vals (idx j)
  let R : Mat3R := Matrix.of fun i j => fixed i (idx j)
  (principal, R, scipyFromMatrixQuat R)

/-- Exact coercion of a rational (exact-float) matrix into the real-valued
eigendecomposition layer. -/
def matQtoR (M : Mat3) : Mat3R := fun i j => ((M i j : ℚ) : ℝ)

/-- The `masses.get(link_name, 1.0)` lookup of `process_stl_files`
(calculate_inertia_from_stl.py, line 169): dictionary lookup with default
mass 1. -/
def lookupMass (masses : List (String × ℚ)) (name : String) : ℚ :=
  (masses.lookup name).getD 1

/-- One entry of the `results` dictionary built by `process_stl_files`
(calculate_inertia_from_stl.py, lines 185-192): mass, center of mass, full
tensor, principal moments, principal-axis rotation matrix, and
quaternion. -/
structure StlRecord where
  mass : ℚ
  com : Vec3
  inertia_full : Mat3
  principal : Fin 3 → ℝ
  rotation : Mat3R
  quat : Quat ℝ

/-- Embedding of the batch loop of `process_stl_files`
(calculate_inertia_from_stl.py, lines 160-198): for each file name, look
up the mass (default 1), load the mesh, compute its inertia, diagonalize,
and record the result.  Two external collaborators are parameters:
`load` models `trimesh.load` (file I/O, which may raise), and `eigh`
models `np.linalg.eigh` (whose contract is hypothesized in the
diagonalization theorem).  The advisory `validate_inertia` call in the
loop only prints a warning and affects neither control flow nor the
recorded results.  The loop body has no exception handler, so an
exception for one file propagates and the loop never reaches the
remaining files; this is modelled by the error short-circuiting of
`Except`. -/
noncomputable def process_stl_files (load : String → Except PyError Mesh)
    (eigh : Mat3R → (Fin 3 → ℝ) × Mat3R) (masses : List (String × ℚ)) :
    List String → Except PyError (List (String × StlRecord))
  | [] => pure []
  | file :: rest => do
      let mass := lookupMass masses file
      let mesh ← load file
      let res := compute_inertia_from_mesh mesh mass
      let ev := eigh (matQtoR res.2.2)
      let post := diagonalize_inertia_post ev.1 ev.2
      let others ← process_stl_files load eigh masses rest
      pure ((file, ⟨mass, res.2.1, res.2.2, post.1, post.2.1, post.2.2⟩) :: others)

/-- Concrete mesh loader for the batch-abort witness: fails on
`"bad.stl"`, succeeds with a fixed unit-cube mesh otherwise. -/
def C3_loadStub : String → Except PyError Mesh :=
  fun file =>
    if file = "bad.stl" then Except.error PyError.ioError
    else Except.ok
      { volume := 1
        boundsLo := ![0, 0, 0]
        boundsHi := ![1, 1, 1]
        center_mass := ![1/2, 1/2, 1/2]
        inertiaUnit := Matrix.diagonal ![1/6, 1/6, 1/6]
        density := 1 }

/-- Concrete stand-in eigendecomposition for the batch-abort witness. -/
noncomputable def C3_eighStub : Mat3R → (Fin 3 → ℝ) × Mat3R :=
  fun _ => (fun _ => 0, 1)

end GenieSim

namespace GenieSim

/-! ## Helper lemmas -/

/-- Either an index is in range and `getDim` returns a value, or it raises
`IndexError`. -/
lemma getDim_cases (dims : List ℚ) (i : Nat) :
    (∃ v, getDim dims i = Except.ok v) ∨ getDim dims i = Except.error PyError.indexError := by
  unfold getDim; cases dims.get? i <;> simp

/-- In-range indexing succeeds. -/
lemma getDim_ok_of_lt (dims : List ℚ) (i : Nat) (h : i < dims.length) :
    ∃ v, getDim dims i = Except.ok v := by
  unfold getDim
  rcases hg : dims.get? i with _ | v
  · rw [List.get?_eq_none] at hg
    omega
  · exact ⟨v, rfl⟩

/-- On a nonzero-norm quaternion, `rotate_inertia` returns the similarity
transform of the scipy rotation matrix. -/
lemma rotate_inertia_ok (d : Vec3) (q : Quat ℚ) (h : quatNormSq q ≠ 0) :
    rotate_inertia d q = Except.ok
      (((quatNormSq q)⁻¹ • quatRotHom q) * Matrix.diagonal d *
        ((quatNormSq q)⁻¹ • quatRotHom q).transpose) := by
  simp [rotate_inertia, quat_to_rotation_matrix, h, Bind.bind, Except.bind, Pure.pure,
    Except.pure]

/-- The only exception `rotate_inertia` can raise is the zero-norm one. -/
lemma rotate_inertia_error_eq (d : Vec3) (q : Quat ℚ) (e : PyError)
    (h : rotate_inertia d q = Except.error e) : e = PyError.zeroNormQuat := by
  by_cases hn : quatNormSq q = 0
  · simp [rotate_inertia, quat_to_rotation_matrix, hn, Bind.bind, Except.bind] at h
    exact h.symm
  · simp [rotate_inertia, quat_to_rotation_matrix, hn, Bind.bind, Except.bind, Pure.pure,
      Except.pure] at h

/-- The only exception the quaternion tail of `calculate_inertia` can raise
is the zero-norm one. -/
lemma quatStage_error_eq (diag : Vec3) (qo : Option (Quat ℚ)) (e : PyError)
    (h : quatStage diag qo = Except.error e) : e = PyError.zeroNormQuat := by
  cases qo with
  | none => simp [quatStage, Pure.pure, Except.pure] at h
  | some q =>
    rcases hr : rotate_inertia diag q with e2 | v
    · have he2 := rotate_inertia_error_eq _ _ _ hr
      subst he2
      simp [quatStage, hr, Bind.bind, Except.bind] at h
      exact h.symm
    · simp [quatStage, hr, Bind.bind, Except.bind, Pure.pure, Except.pure] at h

/-- The quaternion tail succeeds when any present quaternion has nonzero
norm. -/
lemma quatStage_ok (diag : Vec3) (qo : Option (Quat ℚ))
    (h : ∀ q, qo = some q → quatNormSq q ≠ 0) :
    ∃ r, quatStage diag qo = Except.ok r := by
  cases qo with
  | none => exact ⟨⟨diag, none, none⟩, rfl⟩
  | some q =>
    refine ⟨⟨diag, some (((quatNormSq q)⁻¹ • quatRotHom q) * Matrix.diagonal diag *
      ((quatNormSq q)⁻¹ • quatRotHom q).transpose), some q⟩, ?_⟩
    simp [quatStage, rotate_inertia_ok diag q (h q rfl), Bind.bind, Except.bind, Pure.pure,
      Except.pure]

/-- Unsupported tags take the final `else raise` branch of the dispatch. -/
lemma shapeDispatch_unsupported (mass : ℚ) (shape : String) (dims : List ℚ)
    (h : shape ∉ supportedShapes) :
    shapeDispatch mass shape dims = Except.error (PyError.unknownShape shape) := by
  simp [supportedShapes] at h
  simp [shapeDispatch, h.1, h.2.1, h.2.2.1, h.2.2.2]

/-- On a supported tag the dispatch can only raise `IndexError`. -/
lemma shapeDispatch_error_eq (mass : ℚ) (shape : String) (dims : List ℚ) (e : PyError)
    (hmem : shape ∈ supportedShapes) (h : shapeDispatch mass shape dims = Except.error e) :
    e = PyError.indexError := by
  simp [supportedShapes] at hmem
  rcases hmem with h1 | h1 | h1 | h1 <;> subst h1
  · rcases getDim_cases dims 0 with ⟨v0, hv0⟩ | hv0
    · rcases getDim_cases dims 1 with ⟨v1, hv1⟩ | hv1
      · rcases getDim_cases dims 2 with ⟨v2, hv2⟩ | hv2
        · simp [shapeDispatch, hv0, hv1, hv2, Bind.bind, Except.bind, Pure.pure,
            Except.pure] at h
        · simp [shapeDispatch, hv0, hv1, hv2, Bind.bind, Except.bind] at h
          exact h.symm
      · simp [shapeDispatch, hv0, hv1, Bind.bind, Except.bind] at h
        exact h.symm
    · simp [shapeDispatch, hv0, Bind.bind, Except.bind] at h
      exact h.symm
  · rcases getDim_cases dims 0 with ⟨v0, hv0⟩ | hv0
    · rcases getDim_cases dims 1 with ⟨v1, hv1⟩ | hv1
      · simp [shapeDispatch, hv0, hv1, Bind.bind, Except.bind, Pure.pure, Except.pure] at h
      · simp [shapeDispatch, hv0, hv1, Bind.bind, Except.bind] at h
        exact h.symm
    · simp [shapeDispatch, hv0, Bind.bind, Except.bind] at h
      exact h.symm
  · rcases getDim_cases dims 0 with ⟨v0, hv0⟩ | hv0
    · rcases getDim_cases dims 1 with ⟨v1, hv1⟩ | hv1
      · simp [shapeDispatch, hv0, hv1, Bind.bind, Except.bind, Pure.pure, Except.pure] at h
      · simp [shapeDispatch, hv0, hv1, Bind.bind, Except.bind] at h
        exact h.symm
    · simp [shapeDispatch, hv0, Bind.bind, Except.bind] at h
      exact h.symm
  · rcases getDim_cases dims 0 with ⟨v0, hv0⟩ | hv0
    · simp [shapeDispatch, hv0, Bind.bind, Except.bind, Pure.pure, Except.pure] at h
    · simp [shapeDispatch, hv0, Bind.bind, Except.bind] at h
      exact h.symm

/-- On a supported tag with enough dimensions the dispatch succeeds. -/
lemma shapeDispatch_ok_of_dims (mass : ℚ) (shape : String) (dims : List ℚ)
    (hmem : shape ∈ supportedShapes) (hlen : requiredDims shape ≤ dims.length) :
    ∃ v, shapeDispatch mass shape dims = Except.ok v := by
  simp [supportedShapes] at hmem
  rcases hmem with h1 | h1 | h1 | h1 <;> subst h1 <;> simp [requiredDims] at hlen
  · obtain ⟨v0, hv0⟩ := getDim_ok_of_lt dims 0 (by omega)
    obtain ⟨v1, hv1⟩ := getDim_ok_of_lt dims 1 (by omega)
    obtain ⟨v2, hv2⟩ := getDim_ok_of_lt dims 2 (by omega)
    exact ⟨inertia_box mass v0 v1 v2, by simp [shapeDispatch, hv0, hv1, hv2, Bind.bind,
      Except.bind, Pure.pure, Except.pure]⟩
  · obtain ⟨v0, hv0⟩ := getDim_ok_of_lt dims 0 (by omega)
    obtain ⟨v1, hv1⟩ := getDim_ok_of_lt dims 1 (by omega)
    exact ⟨inertia_cylinder_z mass v0 v1, by simp [shapeDispatch, hv0, hv1, Bind.bind,
      Except.bind, Pure.pure, Except.pure]⟩
  · obtain ⟨v0, hv0⟩ := getDim_ok_of_lt dims 0 (by omega)
    obtain ⟨v1, hv1⟩ := getDim_ok_of_lt dims 1 (by omega)
    exact ⟨inertia_cylinder_y mass v0 v1, by simp [shapeDispatch, hv0, hv1, Bind.bind,
      Except.bind, Pure.pure, Except.pure]⟩
  · obtain ⟨v0, hv0⟩ := getDim_ok_of_lt dims 0 (by omega)
    exact ⟨inertia_sphere mass v0, by simp [shapeDispatch, hv0, Bind.bind, Except.bind,
      Pure.pure, Except.pure]⟩

/-- Columns of the homogeneous quaternion matrix are orthogonal with squared
length `(quatNormSq q)²`. -/
lemma quatRotHom_transpose_mul (q : Quat ℚ) :
    (quatRotHom q).transpose * quatRotHom q = (quatNormSq q) ^ 2 • (1 : Mat3) := by
  ext i j
  fin_cases i <;> fin_cases j <;>
    · simp [quatRotHom, quatNormSq, Matrix.mul_apply, Fin.sum_univ_three, Matrix.one_apply,
        Matrix.transpose_apply, Matrix.of_apply, Matrix.cons_val', Matrix.cons_val_zero,
        Matrix.cons_val_one, Matrix.head_cons, Matrix.empty_val', Matrix.cons_val_fin_one,
        Matrix.head_fin_const, Matrix.vecHead, Matrix.vecTail]
      ring

end GenieSim

namespace GenieSim

/-! ## Claim theorems -/

/-- C1: for every mass and dimensions, the primitive-shape calculators
return the closed-form principal moments of the spec — box
`(m(ly²+lz²)/12, m(lx²+lz²)/12, m(lx²+ly²)/12)`, cylinder about Z
`(m(3r²+h²)/12, m(3r²+h²)/12, mr²/2)`, cylinder about Y with the axial
term moved to the middle slot, sphere `(2mr²/5, 2mr²/5, 2mr²/5)` — and in
particular a unit-mass radius-1 sphere gives `Ixx = Iyy = Izz = 2/5 = 0.4`.
Proved for all rational arguments, which subsumes the positive ones the
claim quantifies over. -/
theorem C1_primitive_shape_formulas :
    (∀ m lx ly lz : ℚ, inertia_box m lx ly lz =
      ![m * (ly ^ 2 + lz ^ 2) / 12, m * (lx ^ 2 + lz ^ 2) / 12, m * (lx ^ 2 + ly ^ 2) / 12]) ∧
    (∀ m r hh : ℚ, inertia_cylinder_z m r hh =
      ![m * (3 * r ^ 2 + hh ^ 2) / 12, m * (3 * r ^ 2 + hh ^ 2) / 12, m * r ^ 2 / 2]) ∧
    (∀ m r hh : ℚ, inertia_cylinder_y m r hh =
      ![m * (3 * r ^ 2 + hh ^ 2) / 12, m * r ^ 2 / 2, m * (3 * r ^ 2 + hh ^ 2) / 12]) ∧
    (∀ m r : ℚ, inertia_sphere m r =
      ![2 * m * r ^ 2 / 5, 2 * m * r ^ 2 / 5, 2 * m * r ^ 2 / 5]) ∧
    inertia_sphere 1 1 = ![2 / 5, 2 / 5, 2 / 5] := by
  refine ⟨?_, ?_, ?_, ?_, ?_⟩ <;>
    · intros
      funext i
      fin_cases i <;>
        · simp [inertia_box, inertia_cylinder_z, inertia_cylinder_y, inertia_sphere]
          try ring

/-- C8: for positive mass and dimensions, every primitive-shape formula
returns principal moments satisfying all three pairwise triangle
inequalities exactly. -/
theorem C8_triangle_inequalities :
    (∀ m lx ly lz : ℚ, 0 < m → 0 < lx → 0 < ly → 0 < lz →
      satisfiesTriangle (inertia_box m lx ly lz)) ∧
    (∀ m r hh : ℚ, 0 < m → 0 < r → 0 < hh →
      satisfiesTriangle (inertia_cylinder_z m r hh)) ∧
    (∀ m r hh : ℚ, 0 < m → 0 < r → 0 < hh →
      satisfiesTriangle (inertia_cylinder_y m r hh)) ∧
    (∀ m r : ℚ, 0 < m → 0 < r → satisfiesTriangle (inertia_sphere m r)) := by
  refine ⟨?_, ?_, ?_, ?_⟩
  · intro m lx ly lz hm _ _ _
    have h1 : 0 ≤ m * lx ^ 2 := mul_nonneg hm.le (sq_nonneg lx)
    have h2 : 0 ≤ m * ly ^ 2 := mul_nonneg hm.le (sq_nonneg ly)
    have h3 : 0 ≤ m * lz ^ 2 := mul_nonneg hm.le (sq_nonneg lz)
    refine ⟨?_, ?_, ?_⟩ <;> · simp [inertia_box, satisfiesTriangle]; nlinarith
  · intro m r hh hm _ _
    have h1 : 0 ≤ m * r ^ 2 := mul_nonneg hm.le (sq_nonneg r)
    have h2 : 0 ≤ m * hh ^ 2 := mul_nonneg hm.le (sq_nonneg hh)
    refine ⟨?_, ?_, ?_⟩ <;> · simp [inertia_cylinder_z, satisfiesTriangle]; nlinarith
  · intro m r hh hm _ _
    have h1 : 0 ≤ m * r ^ 2 := mul_nonneg hm.le (sq_nonneg r)
    have h2 : 0 ≤ m * hh ^ 2 := mul_nonneg hm.le (sq_nonneg hh)
    refine ⟨?_, ?_, ?_⟩ <;> · simp [inertia_cylinder_y, satisfiesTriangle]; nlinarith
  · intro m r hm _
    have h1 : 0 ≤ m * r ^ 2 := mul_nonneg hm.le (sq_nonneg r)
    refine ⟨?_, ?_, ?_⟩ <;> · simp [inertia_sphere, satisfiesTriangle]; nlinarith

/-- C8 witness: the triangle inequalities instantiated at unit mass and
unit dimensions for all four shapes. -/
theorem C8_triangle_inequalities_witness :
    (0 : ℚ) < 1 ∧
    satisfiesTriangle (inertia_box 1 1 1 1) ∧
    satisfiesTriangle (inertia_cylinder_z 1 1 1) ∧
    satisfiesTriangle (inertia_cylinder_y 1 1 1) ∧
    satisfiesTriangle (inertia_sphere 1 1) :=
  ⟨one_pos,
   C8_triangle_inequalities.1 1 1 1 1 one_pos one_pos one_pos one_pos,
   C8_triangle_inequalities.2.1 1 1 1 one_pos one_pos one_pos,
   C8_triangle_inequalities.2.2.1 1 1 1 one_pos one_pos one_pos,
   C8_triangle_inequalities.2.2.2 1 1 one_pos one_pos⟩

/-- C2 (amended): the two `validate_inertia` checkers differ in tolerance.
The STL-pipeline checker accepts exactly when every triangle inequality
holds up to the absolute tolerance `eps = 1e-10`; the primitive-pipeline
checker in calculate_inertia.py compares strictly with no tolerance.  Both
are total (never raise), both report exactly the violated pairs, and both
reject `(1, 1, 3)` reporting the violation of `izz ≤ ixx + iyy`. -/
theorem C2_validity_checkers :
    (∀ x y z : ℚ, (FromStl.validate_inertia x y z).1 = true ↔
      (z - FromStl.eps ≤ x + y ∧ x - FromStl.eps ≤ y + z ∧ y - FromStl.eps ≤ z + x)) ∧
    (∀ x y z : ℚ, (validate_inertia x y z).1 = true ↔
      (z ≤ x + y ∧ x ≤ y + z ∧ y ≤ z + x)) ∧
    (∀ x y z : ℚ, ViolatedPair.xxyy_lt_zz ∈ (FromStl.validate_inertia x y z).2 ↔
      x + y < z - FromStl.eps) ∧
    (∀ x y z : ℚ, ViolatedPair.yyzz_lt_xx ∈ (FromStl.validate_inertia x y z).2 ↔
      y + z < x - FromStl.eps) ∧
    (∀ x y z : ℚ, ViolatedPair.zzxx_lt_yy ∈ (FromStl.validate_inertia x y z).2 ↔
      z + x < y - FromStl.eps) ∧
    (∀ x y z : ℚ, ViolatedPair.xxyy_lt_zz ∈ (validate_inertia x y z).2 ↔ x + y < z) ∧
    (∀ x y z : ℚ, ViolatedPair.yyzz_lt_xx ∈ (validate_inertia x y z).2 ↔ y + z < x) ∧
    (∀ x y z : ℚ, ViolatedPair.zzxx_lt_yy ∈ (validate_inertia x y z).2 ↔ z + x < y) ∧
    FromStl.validate_inertia 1 1 3 = (false, [ViolatedPair.xxyy_lt_zz]) ∧
    validate_inertia 1 1 3 = (false, [ViolatedPair.xxyy_lt_zz]) := by
  refine ⟨?_, ?_, ?_, ?_, ?_, ?_, ?_, ?_, ?_, ?_⟩
  · intro x y z
    simp only [FromStl.validate_inertia]
    split_ifs <;> simp_all <;> first
    | (constructor <;> intros <;> linarith)
    | (intros <;> linarith)
    | linarith
  · intro x y z
    simp only [validate_inertia]
    split_ifs <;> simp_all <;> first
    | (constructor <;> intros <;> linarith)
    | (intros <;> linarith)
    | linarith
  · intro x y z
    simp only [FromStl.validate_inertia]
    split_ifs <;> simp_all
  · intro x y z
    simp only [FromStl.validate_inertia]
    split_ifs <;> simp_all
  · intro x y z
    simp only [FromStl.validate_inertia]
    split_ifs <;> simp_all
  · intro x y z
    simp only [validate_inertia]
    split_ifs <;> simp_all
  · intro x y z
    simp only [validate_inertia]
    split_ifs <;> simp_all
  · intro x y z
    simp only [validate_inertia]
    split_ifs <;> simp_all
  · norm_num [FromStl.validate_inertia, FromStl.eps]
  · norm_num [validate_inertia]

/-- C2 counterexample: on `(1, 1, 2 + 1e-11)` no triangle inequality is
violated beyond the claimed `1e-10` tolerance, yet the
calculate_inertia.py checker — which the claim also covers — returns
`False`, because it compares strictly with no tolerance. -/
theorem C2_counterexample :
    (validate_inertia 1 1 (2 + 1 / 10 ^ 11)).1 = false ∧
    (2 + 1 / 10 ^ 11 : ℚ) - FromStl.eps ≤ 1 + 1 ∧
    (1 : ℚ) - FromStl.eps ≤ 1 + (2 + 1 / 10 ^ 11) ∧
    (1 : ℚ) - FromStl.eps ≤ (2 + 1 / 10 ^ 11) + 1 := by
  refine ⟨?_, by norm_num [FromStl.eps], by norm_num [FromStl.eps], by norm_num [FromStl.eps]⟩
  norm_num [validate_inertia]

/-- C3 counterexample: a two-body batch whose first body has an unsupported
shape tag produces a propagated error and an empty result set — the
well-formed second body is never processed, contradicting per-body failure
isolation. -/
theorem C3_counterexample :
    process_links [("bad", ⟨1, "pyramid", [1], none⟩), ("good", ⟨1, "sphere", [1], none⟩)]
      = Except.error (PyError.unknownShape "pyramid") := by
  simp [process_links, calculate_inertia, shapeDispatch, Bind.bind, Except.bind]

/-- C3 (amended): neither batch loop has a per-body exception handler.
In `main`'s loop over the link table, if every body before some failing
body succeeds and that body's computation raises, the error propagates
out of the loop: the run returns it and no body after the failing one is
processed or recorded.  The same holds for the `process_stl_files` loop
over STL files, whose per-file failure source is the external mesh
loader. -/
theorem C3_batch_aborts_on_error :
    (∀ (pre : List (String × LinkData)) (name : String) (data : LinkData)
        (rest : List (String × LinkData)) (e : PyError),
      (∀ item ∈ pre, ∃ r, calculate_inertia item.2 = Except.ok r) →
      calculate_inertia data = Except.error e →
      process_links (pre ++ (name, data) :: rest) = Except.error e) ∧
    (∀ (load : String → Except PyError Mesh) (eigh : Mat3R → (Fin 3 → ℝ) × Mat3R)
        (masses : List (String × ℚ)) (pre : List String) (file : String)
        (rest : List String) (e : PyError),
      (∀ f ∈ pre, ∃ m, load f = Except.ok m) →
      load file = Except.error e →
      process_stl_files load eigh masses (pre ++ file :: rest) = Except.error e) := by
  constructor
  · intro pre
    induction pre with
    | nil =>
      intro name data rest e _ herr
      simp [process_links, herr, Bind.bind, Except.bind]
    | cons item pre ih =>
      intro name data rest e hpre herr
      obtain ⟨r, hr⟩ := hpre item (by simp)
      have hrec := ih name data rest e (fun it hit => hpre it (by simp [hit])) herr
      obtain ⟨nm, dt⟩ := item
      simp [process_links, hr, hrec, Bind.bind, Except.bind]
  · intro load eigh masses pre
    induction pre with
    | nil =>
      intro file rest e _ herr
      simp [process_stl_files, herr, Bind.bind, Except.bind]
    | cons f pre ih =>
      intro file rest e hpre herr
      obtain ⟨m, hm⟩ := hpre f (by simp)
      have hrec := ih file rest e (fun g hg => hpre g (by simp [hg])) herr
      simp [process_stl_files, hm, hrec, Bind.bind, Except.bind]

/-- C3 witness: both abort theorems applied concretely — a three-body
link batch whose second body has an unsupported shape, and a three-file
STL batch whose second file fails to load; each run returns the error of
its failing body. -/
theorem C3_batch_aborts_on_error_witness :
    (∃ r, calculate_inertia ⟨1, "sphere", [1], none⟩ = Except.ok r) ∧
    calculate_inertia ⟨1, "pyramid", [1], none⟩
      = Except.error (PyError.unknownShape "pyramid") ∧
    process_links [("good0", ⟨1, "sphere", [1], none⟩), ("bad2", ⟨1, "pyramid", [1], none⟩),
        ("good2", ⟨1, "sphere", [1], none⟩)]
      = Except.error (PyError.unknownShape "pyramid") ∧
    C3_loadStub "bad.stl" = Except.error PyError.ioError ∧
    (∃ m, C3_loadStub "good.stl" = Except.ok m) ∧
    process_stl_files C3_loadStub C3_eighStub [] ["good.stl", "bad.stl", "late.stl"]
      = Except.error PyError.ioError := by
  have hok : ∃ r, calculate_inertia ⟨1, "sphere", [1], none⟩ = Except.ok r :=
    ⟨⟨inertia_sphere 1 1, none, none⟩, by
      simp [calculate_inertia, shapeDispatch, getDim, quatStage, Bind.bind, Except.bind,
        Pure.pure, Except.pure]⟩
  have hbad : calculate_inertia ⟨1, "pyramid", [1], none⟩
      = Except.error (PyError.unknownShape "pyramid") := by
    simp [calculate_inertia, shapeDispatch, Bind.bind, Except.bind]
  have hloadbad : C3_loadStub "bad.stl" = Except.error PyError.ioError := by
    simp [C3_loadStub]
  have hloadgood : ∃ m, C3_loadStub "good.stl" = Except.ok m :=
    ⟨{ volume := 1, boundsLo := ![0, 0, 0], boundsHi := ![1, 1, 1],
       center_mass := ![1/2, 1/2, 1/2], inertiaUnit := Matrix.diagonal ![1/6, 1/6, 1/6],
       density := 1 }, by simp [C3_loadStub]⟩
  refine ⟨hok, hbad, ?_, hloadbad, hloadgood, ?_⟩
  · exact C3_batch_aborts_on_error.1 [("good0", ⟨1, "sphere", [1], none⟩)] "bad2"
      ⟨1, "pyramid", [1], none⟩ [("good2", ⟨1, "sphere", [1], none⟩)]
      (PyError.unknownShape "pyramid")
      (by
        intro it hit
        simp only [List.mem_singleton] at hit
        subst hit
        exact hok) hbad
  · exact C3_batch_aborts_on_error.2 C3_loadStub C3_eighStub [] ["good.stl"] "bad.stl"
      ["late.stl"] PyError.ioError
      (by
        intro g hg
        simp only [List.mem_singleton] at hg
        subst hg
        exact hloadgood) hloadbad

/-- C7 counterexample: `"box"` is a supported tag, yet `calculate_inertia`
does not return normally on a box body whose dimension list is empty — it
raises `IndexError` — so "for every shape tag in that set it returns
normally" fails as universally stated. -/
theorem C7_counterexample :
    "box" ∈ supportedShapes ∧
    calculate_inertia ⟨1, "box", [], none⟩ = Except.error PyError.indexError := by
  constructor
  · simp [supportedShapes]
  · simp [calculate_inertia, shapeDispatch, getDim, Bind.bind, Except.bind]

/-- C7 (amended): `calculate_inertia` raises `UnsupportedShape` exactly on
tags outside `{box, cylinder_z, cylinder_y, sphere}`, and on a supported
tag it returns normally provided the dimension list has the arity the
shape indexes (3 for box, 2 for cylinders, 1 for sphere) and any present
quaternion has nonzero norm.  It is a pure function of the link record. -/
theorem C7_unsupported_shape :
    (∀ link : LinkData,
      (calculate_inertia link = Except.error (PyError.unknownShape link.shape) ↔
        link.shape ∉ supportedShapes)) ∧
    (∀ link : LinkData, link.shape ∈ supportedShapes →
      requiredDims link.shape ≤ link.dims.length →
      (∀ q, link.quat = some q → quatNormSq q ≠ 0) →
      ∃ r, calculate_inertia link = Except.ok r) := by
  constructor
  · intro link
    constructor
    · intro h
      by_contra hmem
      unfold calculate_inertia at h
      rcases hd : shapeDispatch link.mass link.shape link.dims with e | diag
      · have he := shapeDispatch_error_eq _ _ _ _ hmem hd
        subst he
        rw [hd] at h
        simp [Bind.bind, Except.bind] at h
      · rw [hd] at h
        simp only [Bind.bind, Except.bind] at h
        have := quatStage_error_eq _ _ _ h
        simp at this
    · intro hmem
      unfold calculate_inertia
      rw [shapeDispatch_unsupported _ _ _ hmem]
      simp [Bind.bind, Except.bind]
  · intro link hmem hlen hq
    obtain ⟨diag, hd⟩ := shapeDispatch_ok_of_dims link.mass link.shape link.dims hmem hlen
    obtain ⟨r, hr⟩ := quatStage_ok diag link.quat hq
    exact ⟨r, by unfold calculate_inertia; rw [hd]; simpa [Bind.bind, Except.bind] using hr⟩

/-- C7 witness: a well-formed box body succeeds; a `"pyramid"` body raises
exactly the unknown-shape error. -/
theorem C7_unsupported_shape_witness :
    ("box" ∈ supportedShapes ∧ requiredDims "box" ≤ ([1, 2, 3] : List ℚ).length ∧
      ∃ r, calculate_inertia ⟨1, "box", [1, 2, 3], none⟩ = Except.ok r) ∧
    ("pyramid" ∉ supportedShapes ∧
      calculate_inertia ⟨1, "pyramid", [1], none⟩
        = Except.error (PyError.unknownShape "pyramid")) := by
  have hmem : "box" ∈ supportedShapes := by simp [supportedShapes]
  have hnmem : "pyramid" ∉ supportedShapes := by simp [supportedShapes]
  have hlen : requiredDims "box" ≤ ([1, 2, 3] : List ℚ).length := by
    simp [requiredDims]
  refine ⟨⟨hmem, hlen, ?_⟩, hnmem, ?_⟩
  · exact C7_unsupported_shape.2 ⟨1, "box", [1, 2, 3], none⟩ hmem hlen
      (by intro q hq; simp at hq)
  · exact (C7_unsupported_shape.1 ⟨1, "pyramid", [1], none⟩).2 hnmem

/-- C4: on a mesh of non-positive volume, `compute_inertia_from_mesh` falls
back to the axis-aligned bounding box — it returns the box center as the
center of mass and the diagonal Box-formula tensor on the box extents. -/
theorem C4_bbox_fallback (mesh : Mesh) (mass : ℚ) (hvol : mesh.volume ≤ 0) :
    (compute_inertia_from_mesh mesh mass).2.1 =
      (fun i => (mesh.boundsLo i + mesh.boundsHi i) / 2) ∧
    (compute_inertia_from_mesh mesh mass).2.2 =
      Matrix.diagonal (inertia_box mass
        (mesh.boundsHi 0 - mesh.boundsLo 0)
        (mesh.boundsHi 1 - mesh.boundsLo 1)
        (mesh.boundsHi 2 - mesh.boundsLo 2)) := by
  have hnot : ¬ 0 < mesh.volume := not_lt.2 hvol
  constructor
  · simp [compute_inertia_from_mesh, hnot, hvol]
  · simp only [compute_inertia_from_mesh, hnot, if_false, if_pos hvol, reduceIte,
      inertia_box]

/-- C4 witness: a degenerate volume-0 mesh with bounding box `(2, 2, 2)`
and mass 1 yields center `(0,0,0)` and the diagonal tensor
`(2/3, 2/3, 2/3)`. -/
theorem C4_bbox_fallback_witness :
    C4_mesh0.volume ≤ 0 ∧
    (compute_inertia_from_mesh C4_mesh0 1).2.1 = ![0, 0, 0] ∧
    (compute_inertia_from_mesh C4_mesh0 1).2.2 = Matrix.diagonal ![2/3, 2/3, 2/3] := by
  have hvol : C4_mesh0.volume ≤ 0 := le_refl 0
  obtain ⟨h1, h2⟩ := C4_bbox_fallback C4_mesh0 1 hvol
  refine ⟨hvol, ?_, ?_⟩
  · rw [h1]
    funext i
    fin_cases i <;> norm_num [C4_mesh0]
  · rw [h2]
    funext i
    fin_cases i <;> norm_num [C4_mesh0, inertia_box]

/-- C9 counterexample: `compute_inertia_from_mesh` is not read-only on its
mesh argument — on a unit-volume mesh of density 1 with target mass 2 it
sets the mesh's density attribute to 2. -/
theorem C9_counterexample :
    (compute_inertia_from_mesh
        { volume := 1, boundsLo := ![0, 0, 0], boundsHi := ![1, 1, 1],
          center_mass := ![0, 0, 0], inertiaUnit := 0, density := 1 } 2).1.density ≠
      (1 : ℚ) := by
  norm_num [compute_inertia_from_mesh]

/-- C9 (amended): the only field of the mesh `compute_inertia_from_mesh`
modifies is `density` (set to `mass / volume` when the volume is positive,
kept otherwise); volume, bounds, center of mass and the unit-density
inertia are left untouched. -/
theorem C9_density_only_mutation (mesh : Mesh) (mass : ℚ) :
    (compute_inertia_from_mesh mesh mass).1.volume = mesh.volume ∧
    (compute_inertia_from_mesh mesh mass).1.boundsLo = mesh.boundsLo ∧
    (compute_inertia_from_mesh mesh mass).1.boundsHi = mesh.boundsHi ∧
    (compute_inertia_from_mesh mesh mass).1.center_mass = mesh.center_mass ∧
    (compute_inertia_from_mesh mesh mass).1.inertiaUnit = mesh.inertiaUnit ∧
    (compute_inertia_from_mesh mesh mass).1.density =
      (if 0 < mesh.volume then mass / mesh.volume else mesh.density) := by
  by_cases hv : 0 < mesh.volume
  · have hnot : ¬ mesh.volume ≤ 0 := not_le.2 hv
    simp [compute_inertia_from_mesh, hv, hnot]
  · have hle : mesh.volume ≤ 0 := not_lt.1 hv
    simp [compute_inertia_from_mesh, hv, hle]

/-- C6: for every diagonal triple and unit quaternion, `rotate_inertia`
computes the similarity transform `R · diag · Rᵗ` of the quaternion's
rotation matrix, and the trace of the result equals the sum of the three
principal moments. -/
theorem C6_rotate_trace (d : Vec3) (q : Quat ℚ) (hq : quatNormSq q = 1) :
    quat_to_rotation_matrix q = Except.ok (quatRotHom q) ∧
    rotate_inertia d q =
      Except.ok (quatRotHom q * Matrix.diagonal d * (quatRotHom q).transpose) ∧
    (quatRotHom q * Matrix.diagonal d * (quatRotHom q).transpose).trace = d 0 + d 1 + d 2 := by
  have hne : quatNormSq q ≠ 0 := by rw [hq]; norm_num
  have hR : quat_to_rotation_matrix q = Except.ok (quatRotHom q) := by
    simp [quat_to_rotation_matrix, hne, hq]
  refine ⟨hR, ?_, ?_⟩
  · simp [rotate_inertia, hR, Bind.bind, Except.bind, Pure.pure, Except.pure]
  · have horth : (quatRotHom q).transpose * quatRotHom q = (1 : Mat3) := by
      rw [quatRotHom_transpose_mul, hq]
      simp
    calc (quatRotHom q * Matrix.diagonal d * (quatRotHom q).transpose).trace
        = ((quatRotHom q).transpose * (quatRotHom q * Matrix.diagonal d)).trace := by
          rw [Matrix.trace_mul_comm]
      _ = (Matrix.diagonal d).trace := by
          rw [← Matrix.mul_assoc, horth, Matrix.one_mul]
      _ = d 0 + d 1 + d 2 := by
          simp [Matrix.trace_fin_three]

/-- C6 witness: the trace law at the unit quaternion `(3/5, 4/5, 0, 0)`
and moments `(1, 2, 3)`. -/
theorem C6_rotate_trace_witness :
    quatNormSq C6_q0 = 1 ∧
    (quatRotHom C6_q0 * Matrix.diagonal ![1, 2, 3] * (quatRotHom C6_q0).transpose).trace
      = (1 : ℚ) + 2 + 3 := by
  have hq : quatNormSq C6_q0 = 1 := by norm_num [quatNormSq, C6_q0]
  refine ⟨hq, ?_⟩
  have h := (C6_rotate_trace ![1, 2, 3] C6_q0 hq).2.2
  rw [h]
  norm_num

/-- C10: whenever `rotate_inertia` returns a tensor — for any quaternion,
unit or not — the tensor is symmetric, and rebuilding a tensor from the
six URDF components extracted by `inertia_tensor_to_urdf` reproduces it
exactly, so the six-component extraction loses no information. -/
theorem C10_rotate_symmetric (d : Vec3) (q : Quat ℚ) (M : Mat3)
    (h : rotate_inertia d q = Except.ok M) :
    M.transpose = M ∧ urdf_to_inertia_tensor (inertia_tensor_to_urdf M) = M := by
  have hne : quatNormSq q ≠ 0 := by
    intro h0
    simp [rotate_inertia, quat_to_rotation_matrix, h0, Bind.bind, Except.bind] at h
  have hM : M = ((quatNormSq q)⁻¹ • quatRotHom q) * Matrix.diagonal d *
      ((quatNormSq q)⁻¹ • quatRotHom q).transpose := by
    rw [rotate_inertia_ok d q hne] at h
    exact (Except.ok.inj h).symm
  have hsym : M.transpose = M := by
    subst hM
    rw [Matrix.transpose_mul, Matrix.transpose_mul, Matrix.transpose_transpose,
      Matrix.diagonal_transpose, Matrix.mul_assoc]
  refine ⟨hsym, ?_⟩
  have hsym2 : ∀ i j, M j i = M i j := fun i j => congrFun (congrFun hsym i) j
  ext i j
  fin_cases i <;> fin_cases j <;>
    simp [urdf_to_inertia_tensor, inertia_tensor_to_urdf] <;>
    first
      | rfl
      | exact hsym2 _ _
      | exact (hsym2 _ _).symm

/-- C10 witness: symmetry and lossless URDF extraction at the non-unit
quaternion `(1, 2, 3, 4)` and moments `(1, 2, 3)`. -/
theorem C10_rotate_symmetric_witness :
    rotate_inertia C10_d0 C10_q1 = Except.ok C10_M1 ∧
    C10_M1.transpose = C10_M1 ∧
    urdf_to_inertia_tensor (inertia_tensor_to_urdf C10_M1) = C10_M1 := by
  have hne : quatNormSq C10_q1 ≠ 0 := by norm_num [quatNormSq, C10_q1]
  have h : rotate_inertia C10_d0 C10_q1 = Except.ok C10_M1 := by
    rw [rotate_inertia_ok C10_d0 C10_q1 hne]
    rfl
  obtain ⟨h1, h2⟩ := C10_rotate_symmetric C10_d0 C10_q1 C10_M1 h
  exact ⟨h, h1, h2⟩

end GenieSim
namespace GenieSim

/-- The scalar consequences of orthogonality (rows and columns orthonormal)
and determinant one (the adjugate equals the transpose, giving the nine
cross-product identities) used by the quaternion-reconstruction algebra. -/
lemma ortho_eqs (M : Mat3R) (horth : M.transpose * M = 1) (hdet : M.det = 1) :
    (M 0 0 ^ 2 + M 0 1 ^ 2 + M 0 2 ^ 2 = 1) ∧
    (M 1 0 ^ 2 + M 1 1 ^ 2 + M 1 2 ^ 2 = 1) ∧
    (M 2 0 ^ 2 + M 2 1 ^ 2 + M 2 2 ^ 2 = 1) ∧
    (M 0 0 * M 1 0 + M 0 1 * M 1 1 + M 0 2 * M 1 2 = 0) ∧
    (M 0 0 * M 2 0 + M 0 1 * M 2 1 + M 0 2 * M 2 2 = 0) ∧
    (M 1 0 * M 2 0 + M 1 1 * M 2 1 + M 1 2 * M 2 2 = 0) ∧
    (M 0 0 ^ 2 + M 1 0 ^ 2 + M 2 0 ^ 2 = 1) ∧
    (M 0 1 ^ 2 + M 1 1 ^ 2 + M 2 1 ^ 2 = 1) ∧
    (M 0 2 ^ 2 + M 1 2 ^ 2 + M 2 2 ^ 2 = 1) ∧
    (M 0 0 * M 0 1 + M 1 0 * M 1 1 + M 2 0 * M 2 1 = 0) ∧
    (M 0 0 * M 0 2 + M 1 0 * M 1 2 + M 2 0 * M 2 2 = 0) ∧
    (M 0 1 * M 0 2 + M 1 1 * M 1 2 + M 2 1 * M 2 2 = 0) ∧
    (M 1 1 * M 2 2 - M 1 2 * M 2 1 = M 0 0) ∧
    (M 0 2 * M 2 1 - M 0 1 * M 2 2 = M 1 0) ∧
    (M 0 1 * M 1 2 - M 0 2 * M 1 1 = M 2 0) ∧
    (M 1 2 * M 2 0 - M 1 0 * M 2 2 = M 0 1) ∧
    (M 0 0 * M 2 2 - M 0 2 * M 2 0 = M 1 1) ∧
    (M 0 2 * M 1 0 - M 0 0 * M 1 2 = M 2 1) ∧
    (M 1 0 * M 2 1 - M 1 1 * M 2 0 = M 0 2) ∧
    (M 0 1 * M 2 0 - M 0 0 * M 2 1 = M 1 2) ∧
    (M 0 0 * M 1 1 - M 0 1 * M 1 0 = M 2 2) := by
  have hrow : M * M.transpose = 1 := Matrix.mul_eq_one_comm.mp horth
  have hadj : M.adjugate = M.transpose := by
    have h1 : M * M.adjugate = 1 := by rw [Matrix.mul_adjugate, hdet, one_smul]
    calc M.adjugate = 1 * M.adjugate := (Matrix.one_mul _).symm
      _ = (M.transpose * M) * M.adjugate := by rw [horth]
      _ = M.transpose * (M * M.adjugate) := Matrix.mul_assoc _ _ _
      _ = M.transpose := by rw [h1, Matrix.mul_one]
  rw [Matrix.adjugate_fin_three] at hadj
  refine ⟨?_, ?_, ?_, ?_, ?_, ?_, ?_, ?_, ?_, ?_, ?_, ?_, ?_, ?_, ?_, ?_, ?_, ?_, ?_, ?_, ?_⟩
  · have h := congrFun (congrFun hrow 0) 0
    simp [Matrix.mul_apply, Fin.sum_univ_three, Matrix.transpose_apply,
      Matrix.one_apply] at h
    linear_combination h
  · have h := congrFun (congrFun hrow 1) 1
    simp [Matrix.mul_apply, Fin.sum_univ_three, Matrix.transpose_apply,
      Matrix.one_apply] at h
    linear_combination h
  · have h := congrFun (congrFun hrow 2) 2
    simp [Matrix.mul_apply, Fin.sum_univ_three, Matrix.transpose_apply,
      Matrix.one_apply] at h
    linear_combination h
  · have h := congrFun (congrFun hrow 0) 1
    simp [Matrix.mul_apply, Fin.sum_univ_three, Matrix.transpose_apply,
      Matrix.one_apply] at h
    linear_combination h
  · have h := congrFun (congrFun hrow 0) 2
    simp [Matrix.mul_apply, Fin.sum_univ_three, Matrix.transpose_apply,
      Matrix.one_apply] at h
    linear_combination h
  · have h := congrFun (congrFun hrow 1) 2
    simp [Matrix.mul_apply, Fin.sum_univ_three, Matrix.transpose_apply,
      Matrix.one_apply] at h
    linear_combination h
  · have h := congrFun (congrFun horth 0) 0
    simp [Matrix.mul_apply, Fin.sum_univ_three, Matrix.transpose_apply,
      Matrix.one_apply] at h
    linear_combination h
  · have h := congrFun (congrFun horth 1) 1
    simp [Matrix.mul_apply, Fin.sum_univ_three, Matrix.transpose_apply,
      Matrix.one_apply] at h
    linear_combination h
  · have h := congrFun (congrFun horth 2) 2
    simp [Matrix.mul_apply, Fin.sum_univ_three, Matrix.transpose_apply,
      Matrix.one_apply] at h
    linear_combination h
  · have h := congrFun (congrFun horth 0) 1
    simp [Matrix.mul_apply, Fin.sum_univ_three, Matrix.transpose_apply,
      Matrix.one_apply] at h
    linear_combination h
  · have h := congrFun (congrFun horth 0) 2
    simp [Matrix.mul_apply, Fin.sum_univ_three, Matrix.transpose_apply,
      Matrix.one_apply] at h
    linear_combination h
  · have h := congrFun (congrFun horth 1) 2
    simp [Matrix.mul_apply, Fin.sum_univ_three, Matrix.transpose_apply,
      Matrix.one_apply] at h
    linear_combination h
  · have h := congrFun (congrFun hadj 0) 0
    simp [Matrix.transpose_apply] at h
    linear_combination h
  · have h := congrFun (congrFun hadj 0) 1
    simp [Matrix.transpose_apply] at h
    linear_combination h
  · have h := congrFun (congrFun hadj 0) 2
    simp [Matrix.transpose_apply] at h
    linear_combination h
  · have h := congrFun (congrFun hadj 1) 0
    simp [Matrix.transpose_apply] at h
    linear_combination h
  · have h := congrFun (congrFun hadj 1) 1
    simp [Matrix.transpose_apply] at h
    linear_combination h
  · have h := congrFun (congrFun hadj 1) 2
    simp [Matrix.transpose_apply] at h
    linear_combination h
  · have h := congrFun (congrFun hadj 2) 0
    simp [Matrix.transpose_apply] at h
    linear_combination h
  · have h := congrFun (congrFun hadj 2) 1
    simp [Matrix.transpose_apply] at h
    linear_combination h
  · have h := congrFun (congrFun hadj 2) 2
    simp [Matrix.transpose_apply] at h
    linear_combination h

/-- Branch 0 of scipy `from_matrix`: on an orthogonal determinant-one
matrix the homogeneous rotation matrix of the unnormalized quaternion is
the squared norm times the input matrix. -/
lemma branch0_hom (M : Mat3R) (horth : M.transpose * M = 1) (hdet : M.det = 1) :
    quatRotHom (quatFromMatBranch0 M) = quatNormSq (quatFromMatBranch0 M) • M := by
  obtain ⟨hr0, hr1, hr2, hr01, hr02, hr12, hc0, hc1, hc2, hc01, hc02, hc12, ha00, ha01, ha02, ha10, ha11, ha12, ha20, ha21, ha22⟩ := ortho_eqs M horth hdet
  ext k l
  fin_cases k <;> fin_cases l <;>
    simp [quatRotHom, quatNormSq, quatFromMatBranch0, quatFromMatBranch1, quatFromMatBranch2, quatFromMatBranch3, Matrix.smul_apply, Matrix.of_apply, Matrix.cons_val', Matrix.cons_val_zero, Matrix.cons_val_one, Matrix.head_cons, Matrix.empty_val', Matrix.cons_val_fin_one, Matrix.head_fin_const, Matrix.vecHead, Matrix.vecTail, smul_eq_mul]
  · linear_combination ((-1) + (-1) * M 0 0 + 2 * M 1 1 + 2 * M 2 2) * hr0 + (1 + (-1) * M 0 0) * hr1 + (1 + (-1) * M 0 0) * hr2 + ((-2) * M 0 1) * hr01 + ((-2) * M 0 2) * hr02 + ((-2)) * hc0 + (2 + (-2) * M 0 0) * ha00 + (2 * M 0 1) * ha01 + (2 * M 0 2) * ha02
  · linear_combination ((-1) * M 0 1) * hr0 + (M 0 1) * hr1 + (M 0 1 + 2 * M 1 0) * hr2 + (2 + (-2) * M 1 1) * hr01 + ((-2) * M 2 1) * hr02 + ((-2) * M 2 0) * hr12 + ((-2) * M 0 1) * hc0 + ((-2) * M 1 0) * hc1 + ((-2) + 2 * M 0 0 + 2 * M 1 1 + 2 * M 2 2) * hc01 + ((-2) * M 2 0) * hc12 + ((-2) * M 0 1) * ha00 + ((-2) + 2 * M 2 2) * ha01 + ((-2) * M 1 2) * ha02 + (2 * M 1 1 + 2 * M 2 2) * ha10
  · linear_combination ((-1) * M 0 2 + (-2) * M 2 0) * hr0 + (M 0 2 + (-2) * M 2 0) * hr1 + (M 0 2) * hr2 + ((-2) * M 1 2) * hr01 + (2 * M 0 0 + (-2) * M 2 2) * hr02 + (2 * M 1 0) * hr12 + ((-2) * M 0 2) * hc0 + (2 * M 2 0) * hc1 + ((-2) * M 2 1) * hc01 + ((-2) + 2 * M 0 0 + 2 * M 1 1) * hc02 + ((-2) * M 1 0) * hc12 + ((-2) * M 0 2 + (-2) * M 2 0) * ha00 + ((-2) * M 2 1) * ha01 + (2 * M 1 1) * ha02 + (2 * M 1 2 + (-2) * M 2 1) * ha10
  · linear_combination ((-1) * M 1 0) * hr0 + ((-2) * M 0 1 + (-1) * M 1 0) * hr1 + ((-1) * M 1 0) * hr2 + ((-2) + 2 * M 1 1 + 2 * M 2 2) * hr01 + ((-2) * M 0 2) * hr12 + (2) * hc01 + ((-2) * M 1 0) * ha00 + (2 + 2 * M 1 1) * ha01 + (2 * M 1 2) * ha02
  · linear_combination ((-1) + M 1 1 + (-2) * M 2 2) * hr0 + (1 + (-1) * M 1 1 + (-2) * M 2 2) * hr1 + ((-1) + (-2) * M 0 0 + M 1 1) * hr2 + ((-2) * M 0 1) * hr01 + (2 * M 0 2 + 2 * M 2 0) * hr02 + (2 * M 1 2 + (-2) * M 2 1) * hr12 + ((-2) * M 1 1 + 2 * M 2 2) * hc0 + (2 + 2 * M 0 0) * hc1 + ((-2) * M 0 1 + 2 * M 1 0) * hc01 + ((-2) * M 2 0) * hc02 + (2 + (-2) * M 2 2) * ha00 + ((-2) * M 0 1) * ha01 + (2 * M 0 2) * ha02 + (2 * M 1 1 + 2 * M 2 2) * ha11
  · linear_combination (M 1 2 + 2 * M 2 1) * hr0 + ((-1) * M 1 2 + 2 * M 2 1) * hr1 + (M 1 2) * hr2 + ((-2) * M 0 2) * hr01 + ((-2) * M 0 1) * hr02 + ((-2) * M 1 1 + (-2) * M 2 2) * hr12 + ((-2) * M 1 2 + (-2) * M 2 1) * hc0 + (2 * M 2 0) * hc01 + ((-2) * M 0 1 + 2 * M 1 0) * hc02 + (2 + 2 * M 0 0) * hc12 + (2 * M 2 1) * ha00 + ((-2) * M 0 2 + (-2) * M 2 0) * ha01 + ((-2) * M 0 1) * ha02 + (2 * M 1 2 + (-2) * M 2 1) * ha11
  · linear_combination ((-1) * M 2 0) * hr0 + ((-1) * M 2 0) * hr1 + ((-2) * M 0 2 + (-1) * M 2 0) * hr2 + ((-2) + 2 * M 1 1 + 2 * M 2 2) * hr02 + ((-2) * M 0 1) * hr12 + ((-2) * M 0 2 + (-2) * M 2 0) * ha00 + ((-2) * M 1 2 + 2 * M 2 1) * ha01 + (2) * ha02
  · linear_combination (2 * M 1 2 + M 2 1) * hr0 + (M 2 1) * hr1 + (2 * M 1 2 + (-1) * M 2 1) * hr2 + ((-2) * M 0 2) * hr01 + ((-2) * M 0 1 + (-2) * M 1 0) * hr02 + (2 + 2 * M 0 0 + (-2) * M 1 1 + (-2) * M 2 2) * hr12 + ((-2) * M 1 2 + (-2) * M 2 1) * hc0 + (2 * M 2 0) * hc01 + (2 * M 1 0) * hc02 + (2 * M 1 2) * ha00 + ((-2) * M 0 2) * ha01 + ((-2) * M 0 1) * ha02 + ((-2) * M 0 2) * ha10 + ((-2) * M 1 2 + 2 * M 2 1) * ha11
  · linear_combination (1 + (-2) * M 1 1 + M 2 2) * hr0 + (1 + M 2 2) * hr1 + (1 + (-2) * M 1 1 + (-1) * M 2 2) * hr2 + (2 * M 0 1) * hr01 + ((-2) * M 0 2) * hr02 + ((-2) * M 1 2 + 2 * M 2 1) * hr12 + ((-2) + 2 * M 1 1 + (-2) * M 2 2) * hc0 + ((-2) * M 1 0) * hc01 + (2 * M 2 0) * hc02 + (2 + (-2) * M 1 1) * ha00 + (2 * M 0 1) * ha01 + ((-2) * M 0 2 + (-2) * M 2 0) * ha02 + (2 * M 0 1) * ha10 + (2 * M 1 1 + 2 * M 2 2) * ha11

/-- Branch 1 of scipy `from_matrix`: on an orthogonal determinant-one
matrix the homogeneous rotation matrix of the unnormalized quaternion is
the squared norm times the input matrix. -/
lemma branch1_hom (M : Mat3R) (horth : M.transpose * M = 1) (hdet : M.det = 1) :
    quatRotHom (quatFromMatBranch1 M) = quatNormSq (quatFromMatBranch1 M) • M := by
  obtain ⟨hr0, hr1, hr2, hr01, hr02, hr12, hc0, hc1, hc2, hc01, hc02, hc12, ha00, ha01, ha02, ha10, ha11, ha12, ha20, ha21, ha22⟩ := ortho_eqs M horth hdet
  ext k l
  fin_cases k <;> fin_cases l <;>
    simp [quatRotHom, quatNormSq, quatFromMatBranch0, quatFromMatBranch1, quatFromMatBranch2, quatFromMatBranch3, Matrix.smul_apply, Matrix.of_apply, Matrix.cons_val', Matrix.cons_val_zero, Matrix.cons_val_one, Matrix.head_cons, Matrix.empty_val', Matrix.cons_val_fin_one, Matrix.head_fin_const, Matrix.vecHead, Matrix.vecTail, smul_eq_mul]
  · linear_combination (1 + (-1) * M 0 0 + 2 * M 1 1 + (-2) * M 2 2) * hr0 + ((-1) + (-1) * M 0 0) * hr1 + ((-1) + (-1) * M 0 0) * hr2 + ((-2) * M 0 1) * hr01 + (2 * M 0 2) * hr02 + (2) * hc0 + (2 + 2 * M 0 0) * ha00 + ((-2) * M 0 1) * ha01 + (2 * M 0 2) * ha02
  · linear_combination ((-1) * M 0 1) * hr0 + (M 0 1) * hr1 + (M 0 1 + 2 * M 1 0) * hr2 + ((-2) + (-2) * M 1 1) * hr01 + ((-2) * M 2 1) * hr02 + ((-2) * M 2 0) * hr12 + ((-2) * M 0 1) * hc0 + ((-2) * M 1 0) * hc1 + (2 + 2 * M 0 0 + 2 * M 1 1 + (-2) * M 2 2) * hc01 + (2 * M 2 0) * hc12 + (2 * M 0 1) * ha00 + ((-2) + 2 * M 2 2) * ha01 + ((-2) * M 1 2) * ha02 + ((-2) * M 1 1 + 2 * M 2 2) * ha10
  · linear_combination ((-1) * M 0 2 + 2 * M 2 0) * hr0 + (M 0 2 + 2 * M 2 0) * hr1 + (M 0 2) * hr2 + ((-2) * M 1 2) * hr01 + ((-2) * M 0 0 + (-2) * M 2 2) * hr02 + ((-2) * M 1 0) * hr12 + ((-2) * M 0 2) * hc0 + ((-2) * M 2 0) * hc1 + (2 * M 2 1) * hc01 + (2 + 2 * M 0 0 + 2 * M 1 1) * hc02 + ((-2) * M 1 0) * hc12 + (2 * M 0 2 + (-2) * M 2 0) * ha00 + ((-2) * M 2 1) * ha01 + (2 * M 1 1) * ha02 + ((-2) * M 1 2 + (-2) * M 2 1) * ha10
  · linear_combination ((-1) * M 1 0) * hr0 + ((-2) * M 0 1 + (-1) * M 1 0) * hr1 + ((-1) * M 1 0) * hr2 + (2 + 2 * M 1 1 + (-2) * M 2 2) * hr01 + (2 * M 0 2) * hr12 + ((-2)) * hc01 + (2 * M 1 0) * ha00 + (2 + (-2) * M 1 1) * ha01 + (2 * M 1 2) * ha02
  · linear_combination (1 + M 1 1 + 2 * M 2 2) * hr0 + ((-1) + (-1) * M 1 1 + 2 * M 2 2) * hr1 + (1 + (-2) * M 0 0 + M 1 1) * hr2 + ((-2) * M 0 1) * hr01 + ((-2) * M 0 2 + 2 * M 2 0) * hr02 + ((-2) * M 1 2 + (-2) * M 2 1) * hr12 + ((-2) * M 1 1 + (-2) * M 2 2) * hc0 + ((-2) + 2 * M 0 0) * hc1 + ((-2) * M 0 1 + 2 * M 1 0) * hc01 + (2 * M 2 0) * hc02 + (2 + (-2) * M 2 2) * ha00 + (2 * M 0 1) * ha01 + (2 * M 0 2) * ha02 + ((-2) * M 1 1 + 2 * M 2 2) * ha11
  · linear_combination (M 1 2 + (-2) * M 2 1) * hr0 + ((-1) * M 1 2 + (-2) * M 2 1) * hr1 + (M 1 2) * hr2 + ((-2) * M 0 2) * hr01 + (2 * M 0 1) * hr02 + (2 * M 1 1 + (-2) * M 2 2) * hr12 + ((-2) * M 1 2 + 2 * M 2 1) * hc0 + ((-2) * M 2 0) * hc01 + ((-2) * M 0 1 + 2 * M 1 0) * hc02 + ((-2) + 2 * M 0 0) * hc12 + (2 * M 2 1) * ha00 + (2 * M 0 2 + (-2) * M 2 0) * ha01 + ((-2) * M 0 1) * ha02 + ((-2) * M 1 2 + (-2) * M 2 1) * ha11
  · linear_combination ((-1) * M 2 0) * hr0 + ((-1) * M 2 0) * hr1 + (2 * M 0 2 + (-1) * M 2 0) * hr2 + (2 + 2 * M 1 1 + (-2) * M 2 2) * hr02 + ((-2) * M 0 1) * hr12 + ((-2) * M 0 2 + 2 * M 2 0) * ha00 + ((-2) * M 1 2 + (-2) * M 2 1) * ha01 + (2) * ha02
  · linear_combination ((-2) * M 1 2 + M 2 1) * hr0 + (M 2 1) * hr1 + ((-2) * M 1 2 + (-1) * M 2 1) * hr2 + (2 * M 0 2) * hr01 + ((-2) * M 0 1 + (-2) * M 1 0) * hr02 + ((-2) + 2 * M 0 0 + (-2) * M 1 1 + 2 * M 2 2) * hr12 + (2 * M 1 2 + (-2) * M 2 1) * hc0 + (2 * M 2 0) * hc01 + ((-2) * M 1 0) * hc02 + (2 * M 1 2) * ha00 + ((-2) * M 0 2) * ha01 + (2 * M 0 1) * ha02 + ((-2) * M 0 2) * ha10 + ((-2) * M 1 2 + (-2) * M 2 1) * ha11
  · linear_combination (1 + 2 * M 1 1 + M 2 2) * hr0 + (1 + M 2 2) * hr1 + (1 + 2 * M 1 1 + (-1) * M 2 2) * hr2 + ((-2) * M 0 1) * hr01 + ((-2) * M 0 2) * hr02 + ((-2) * M 1 2 + (-2) * M 2 1) * hr12 + ((-2) + (-2) * M 1 1 + (-2) * M 2 2) * hc0 + (2 * M 1 0) * hc01 + (2 * M 2 0) * hc02 + ((-2) + (-2) * M 1 1) * ha00 + (2 * M 0 1) * ha01 + (2 * M 0 2 + (-2) * M 2 0) * ha02 + (2 * M 0 1) * ha10 + (2 * M 1 1 + (-2) * M 2 2) * ha11

/-- Branch 2 of scipy `from_matrix`: on an orthogonal determinant-one
matrix the homogeneous rotation matrix of the unnormalized quaternion is
the squared norm times the input matrix. -/
lemma branch2_hom (M : Mat3R) (horth : M.transpose * M = 1) (hdet : M.det = 1) :
    quatRotHom (quatFromMatBranch2 M) = quatNormSq (quatFromMatBranch2 M) • M := by
  obtain ⟨hr0, hr1, hr2, hr01, hr02, hr12, hc0, hc1, hc2, hc01, hc02, hc12, ha00, ha01, ha02, ha10, ha11, ha12, ha20, ha21, ha22⟩ := ortho_eqs M horth hdet
  ext k l
  fin_cases k <;> fin_cases l <;>
    simp [quatRotHom, quatNormSq, quatFromMatBranch0, quatFromMatBranch1, quatFromMatBranch2, quatFromMatBranch3, Matrix.smul_apply, Matrix.of_apply, Matrix.cons_val', Matrix.cons_val_zero, Matrix.cons_val_one, Matrix.head_cons, Matrix.empty_val', Matrix.cons_val_fin_one, Matrix.head_fin_const, Matrix.vecHead, Matrix.vecTail, smul_eq_mul]
  · linear_combination (1 + (-1) * M 0 0 + (-2) * M 1 1 + 2 * M 2 2) * hr0 + ((-1) + (-1) * M 0 0) * hr1 + ((-1) + (-1) * M 0 0) * hr2 + (2 * M 0 1) * hr01 + ((-2) * M 0 2) * hr02 + (2) * hc0 + (2 + 2 * M 0 0) * ha00 + (2 * M 0 1) * ha01 + ((-2) * M 0 2) * ha02
  · linear_combination ((-1) * M 0 1) * hr0 + (M 0 1) * hr1 + (M 0 1 + (-2) * M 1 0) * hr2 + (2 + (-2) * M 1 1) * hr01 + ((-2) * M 2 1) * hr02 + (2 * M 2 0) * hr12 + ((-2) * M 0 1) * hc0 + (2 * M 1 0) * hc1 + (2 + 2 * M 0 0 + (-2) * M 1 1 + 2 * M 2 2) * hc01 + ((-2) * M 2 0) * hc12 + (2 * M 0 1) * ha00 + (2 + 2 * M 2 2) * ha01 + ((-2) * M 1 2) * ha02 + (2 * M 1 1 + (-2) * M 2 2) * ha10
  · linear_combination ((-1) * M 0 2 + (-2) * M 2 0) * hr0 + (M 0 2 + (-2) * M 2 0) * hr1 + (M 0 2) * hr2 + ((-2) * M 1 2) * hr01 + (2 * M 0 0 + (-2) * M 2 2) * hr02 + (2 * M 1 0) * hr12 + ((-2) * M 0 2) * hc0 + (2 * M 2 0) * hc1 + ((-2) * M 2 1) * hc01 + (2 + 2 * M 0 0 + (-2) * M 1 1) * hc02 + (2 * M 1 0) * hc12 + (2 * M 0 2 + 2 * M 2 0) * ha00 + ((-2) * M 2 1) * ha01 + (2 * M 1 1) * ha02 + (2 * M 1 2 + 2 * M 2 1) * ha10
  · linear_combination ((-1) * M 1 0) * hr0 + (2 * M 0 1 + (-1) * M 1 0) * hr1 + ((-1) * M 1 0) * hr2 + (2 + (-2) * M 1 1 + 2 * M 2 2) * hr01 + ((-2) * M 0 2) * hr12 + (2) * hc01 + (2 * M 1 0) * ha00 + (2 + 2 * M 1 1) * ha01 + ((-2) * M 1 2) * ha02
  · linear_combination ((-1) + M 1 1 + 2 * M 2 2) * hr0 + (1 + (-1) * M 1 1 + 2 * M 2 2) * hr1 + ((-1) + 2 * M 0 0 + M 1 1) * hr2 + ((-2) * M 0 1) * hr01 + ((-2) * M 0 2 + (-2) * M 2 0) * hr02 + ((-2) * M 1 2 + (-2) * M 2 1) * hr12 + ((-2) * M 1 1 + (-2) * M 2 2) * hc0 + (2 + (-2) * M 0 0) * hc1 + (2 * M 0 1 + 2 * M 1 0) * hc01 + (2 * M 2 0) * hc02 + ((-2) + (-2) * M 2 2) * ha00 + (2 * M 0 1) * ha01 + (2 * M 0 2) * ha02 + (2 * M 1 1 + (-2) * M 2 2) * ha11
  · linear_combination (M 1 2 + (-2) * M 2 1) * hr0 + ((-1) * M 1 2 + (-2) * M 2 1) * hr1 + (M 1 2) * hr2 + ((-2) * M 0 2) * hr01 + (2 * M 0 1) * hr02 + (2 * M 1 1 + (-2) * M 2 2) * hr12 + ((-2) * M 1 2 + 2 * M 2 1) * hc0 + ((-2) * M 2 0) * hc01 + (2 * M 0 1 + 2 * M 1 0) * hc02 + (2 + (-2) * M 0 0) * hc12 + (2 * M 2 1) * ha00 + (2 * M 0 2 + 2 * M 2 0) * ha01 + ((-2) * M 0 1) * ha02 + (2 * M 1 2 + 2 * M 2 1) * ha11
  · linear_combination ((-1) * M 2 0) * hr0 + ((-1) * M 2 0) * hr1 + ((-2) * M 0 2 + (-1) * M 2 0) * hr2 + (2 + (-2) * M 1 1 + 2 * M 2 2) * hr02 + (2 * M 0 1) * hr12 + (2 * M 0 2 + 2 * M 2 0) * ha00 + (2 * M 1 2 + 2 * M 2 1) * ha01 + (2) * ha02
  · linear_combination ((-2) * M 1 2 + M 2 1) * hr0 + (M 2 1) * hr1 + ((-2) * M 1 2 + (-1) * M 2 1) * hr2 + (2 * M 0 2) * hr01 + ((-2) * M 0 1 + 2 * M 1 0) * hr02 + (2 + (-2) * M 0 0 + (-2) * M 1 1 + 2 * M 2 2) * hr12 + (2 * M 1 2 + (-2) * M 2 1) * hc0 + (2 * M 2 0) * hc01 + ((-2) * M 1 0) * hc02 + (2 * M 1 2) * ha00 + ((-2) * M 0 2) * ha01 + (2 * M 0 1) * ha02 + (2 * M 0 2) * ha10 + (2 * M 1 2 + 2 * M 2 1) * ha11
  · linear_combination ((-1) + 2 * M 1 1 + M 2 2) * hr0 + ((-1) + M 2 2) * hr1 + ((-1) + 2 * M 1 1 + (-1) * M 2 2) * hr2 + ((-2) * M 0 1) * hr01 + ((-2) * M 0 2) * hr02 + ((-2) * M 1 2 + (-2) * M 2 1) * hr12 + (2 + (-2) * M 1 1 + (-2) * M 2 2) * hc0 + (2 * M 1 0) * hc01 + (2 * M 2 0) * hc02 + (2 + (-2) * M 1 1) * ha00 + (2 * M 0 1) * ha01 + (2 * M 0 2 + 2 * M 2 0) * ha02 + ((-2) * M 0 1) * ha10 + ((-2) * M 1 1 + 2 * M 2 2) * ha11

/-- Branch 3 of scipy `from_matrix`: on an orthogonal determinant-one
matrix the homogeneous rotation matrix of the unnormalized quaternion is
the squared norm times the input matrix. -/
lemma branch3_hom (M : Mat3R) (horth : M.transpose * M = 1) (hdet : M.det = 1) :
    quatRotHom (quatFromMatBranch3 M) = quatNormSq (quatFromMatBranch3 M) • M := by
  obtain ⟨hr0, hr1, hr2, hr01, hr02, hr12, hc0, hc1, hc2, hc01, hc02, hc12, ha00, ha01, ha02, ha10, ha11, ha12, ha20, ha21, ha22⟩ := ortho_eqs M horth hdet
  ext k l
  fin_cases k <;> fin_cases l <;>
    simp [quatRotHom, quatNormSq, quatFromMatBranch0, quatFromMatBranch1, quatFromMatBranch2, quatFromMatBranch3, Matrix.smul_apply, Matrix.of_apply, Matrix.cons_val', Matrix.cons_val_zero, Matrix.cons_val_one, Matrix.head_cons, Matrix.empty_val', Matrix.cons_val_fin_one, Matrix.head_fin_const, Matrix.vecHead, Matrix.vecTail, smul_eq_mul]
  · linear_combination ((-1) + (-1) * M 0 0 + (-2) * M 1 1 + (-2) * M 2 2) * hr0 + (1 + (-1) * M 0 0) * hr1 + (1 + (-1) * M 0 0) * hr2 + (2 * M 0 1) * hr01 + (2 * M 0 2) * hr02 + ((-2)) * hc0 + (2 + (-2) * M 0 0) * ha00 + ((-2) * M 0 1) * ha01 + ((-2) * M 0 2) * ha02
  · linear_combination ((-1) * M 0 1) * hr0 + (M 0 1) * hr1 + (M 0 1 + (-2) * M 1 0) * hr2 + ((-2) + (-2) * M 1 1) * hr01 + ((-2) * M 2 1) * hr02 + (2 * M 2 0) * hr12 + ((-2) * M 0 1) * hc0 + (2 * M 1 0) * hc1 + ((-2) + 2 * M 0 0 + (-2) * M 1 1 + (-2) * M 2 2) * hc01 + (2 * M 2 0) * hc12 + ((-2) * M 0 1) * ha00 + (2 + 2 * M 2 2) * ha01 + ((-2) * M 1 2) * ha02 + ((-2) * M 1 1 + (-2) * M 2 2) * ha10
  · linear_combination ((-1) * M 0 2 + 2 * M 2 0) * hr0 + (M 0 2 + 2 * M 2 0) * hr1 + (M 0 2) * hr2 + ((-2) * M 1 2) * hr01 + ((-2) * M 0 0 + (-2) * M 2 2) * hr02 + ((-2) * M 1 0) * hr12 + ((-2) * M 0 2) * hc0 + ((-2) * M 2 0) * hc1 + (2 * M 2 1) * hc01 + ((-2) + 2 * M 0 0 + (-2) * M 1 1) * hc02 + (2 * M 1 0) * hc12 + ((-2) * M 0 2 + 2 * M 2 0) * ha00 + ((-2) * M 2 1) * ha01 + (2 * M 1 1) * ha02 + ((-2) * M 1 2 + 2 * M 2 1) * ha10
  · linear_combination ((-1) * M 1 0) * hr0 + (2 * M 0 1 + (-1) * M 1 0) * hr1 + ((-1) * M 1 0) * hr2 + ((-2) + (-2) * M 1 1 + (-2) * M 2 2) * hr01 + (2 * M 0 2) * hr12 + ((-2)) * hc01 + ((-2) * M 1 0) * ha00 + (2 + (-2) * M 1 1) * ha01 + ((-2) * M 1 2) * ha02
  · linear_combination (1 + M 1 1 + (-2) * M 2 2) * hr0 + ((-1) + (-1) * M 1 1 + (-2) * M 2 2) * hr1 + (1 + 2 * M 0 0 + M 1 1) * hr2 + ((-2) * M 0 1) * hr01 + (2 * M 0 2 + (-2) * M 2 0) * hr02 + (2 * M 1 2 + (-2) * M 2 1) * hr12 + ((-2) * M 1 1 + 2 * M 2 2) * hc0 + ((-2) + (-2) * M 0 0) * hc1 + (2 * M 0 1 + 2 * M 1 0) * hc01 + ((-2) * M 2 0) * hc02 + ((-2) + (-2) * M 2 2) * ha00 + ((-2) * M 0 1) * ha01 + (2 * M 0 2) * ha02 + ((-2) * M 1 1 + (-2) * M 2 2) * ha11
  · linear_combination (M 1 2 + 2 * M 2 1) * hr0 + ((-1) * M 1 2 + 2 * M 2 1) * hr1 + (M 1 2) * hr2 + ((-2) * M 0 2) * hr01 + ((-2) * M 0 1) * hr02 + ((-2) * M 1 1 + (-2) * M 2 2) * hr12 + ((-2) * M 1 2 + (-2) * M 2 1) * hc0 + (2 * M 2 0) * hc01 + (2 * M 0 1 + 2 * M 1 0) * hc02 + ((-2) + (-2) * M 0 0) * hc12 + (2 * M 2 1) * ha00 + ((-2) * M 0 2 + 2 * M 2 0) * ha01 + ((-2) * M 0 1) * ha02 + ((-2) * M 1 2 + 2 * M 2 1) * ha11
  · linear_combination ((-1) * M 2 0) * hr0 + ((-1) * M 2 0) * hr1 + (2 * M 0 2 + (-1) * M 2 0) * hr2 + ((-2) + (-2) * M 1 1 + (-2) * M 2 2) * hr02 + (2 * M 0 1) * hr12 + (2 * M 0 2 + (-2) * M 2 0) * ha00 + (2 * M 1 2 + (-2) * M 2 1) * ha01 + (2) * ha02
  · linear_combination (2 * M 1 2 + M 2 1) * hr0 + (M 2 1) * hr1 + (2 * M 1 2 + (-1) * M 2 1) * hr2 + ((-2) * M 0 2) * hr01 + ((-2) * M 0 1 + 2 * M 1 0) * hr02 + ((-2) + (-2) * M 0 0 + (-2) * M 1 1 + (-2) * M 2 2) * hr12 + ((-2) * M 1 2 + (-2) * M 2 1) * hc0 + (2 * M 2 0) * hc01 + (2 * M 1 0) * hc02 + (2 * M 1 2) * ha00 + ((-2) * M 0 2) * ha01 + ((-2) * M 0 1) * ha02 + (2 * M 0 2) * ha10 + (2 * M 1 2 + (-2) * M 2 1) * ha11
  · linear_combination ((-1) + (-2) * M 1 1 + M 2 2) * hr0 + ((-1) + M 2 2) * hr1 + ((-1) + (-2) * M 1 1 + (-1) * M 2 2) * hr2 + (2 * M 0 1) * hr01 + ((-2) * M 0 2) * hr02 + ((-2) * M 1 2 + 2 * M 2 1) * hr12 + (2 + 2 * M 1 1 + (-2) * M 2 2) * hc0 + ((-2) * M 1 0) * hc01 + (2 * M 2 0) * hc02 + ((-2) + (-2) * M 1 1) * ha00 + (2 * M 0 1) * ha01 + ((-2) * M 0 2 + 2 * M 2 0) * ha02 + ((-2) * M 0 1) * ha10 + ((-2) * M 1 1 + (-2) * M 2 2) * ha11

end GenieSim
namespace GenieSim

/-- Diagonal entries of a matrix with unit rows are at most 1. -/
lemma diag_le_one (M : Mat3R) (horth : M.transpose * M = 1) :
    M 0 0 ≤ 1 ∧ M 1 1 ≤ 1 ∧ M 2 2 ≤ 1 := by
  have hrow : M * M.transpose = 1 := Matrix.mul_eq_one_comm.mp horth
  have hr0 := congrFun (congrFun hrow 0) 0
  have hr1 := congrFun (congrFun hrow 1) 1
  have hr2 := congrFun (congrFun hrow 2) 2
  simp [Matrix.mul_apply, Fin.sum_univ_three, Matrix.transpose_apply, Matrix.one_apply]
    at hr0 hr1 hr2
  refine ⟨?_, ?_, ?_⟩
  · nlinarith [sq_nonneg (M 0 0 - 1), sq_nonneg (M 0 1), sq_nonneg (M 0 2)]
  · nlinarith [sq_nonneg (M 1 1 - 1), sq_nonneg (M 1 0), sq_nonneg (M 1 2)]
  · nlinarith [sq_nonneg (M 2 2 - 1), sq_nonneg (M 2 0), sq_nonneg (M 2 1)]

/-- Positivity of the branch-0 unnormalized quaternion under the argmax
conditions selecting branch 0. -/
lemma branch0_pos (M : Mat3R)
    (h1 : M 0 0 ≥ M 1 1) (h2 : M 0 0 ≥ M 2 2)
    (h3 : M 0 0 ≥ M 0 0 + M 1 1 + M 2 2) :
    0 < quatNormSq (quatFromMatBranch0 M) := by
  have hx : 0 < 1 - (M 0 0 + M 1 1 + M 2 2) + 2 * M 0 0 := by linarith
  have hx2 : 0 < (1 - (M 0 0 + M 1 1 + M 2 2) + 2 * M 0 0) ^ 2 := pow_pos hx 2
  simp only [quatNormSq, quatFromMatBranch0]
  nlinarith [sq_nonneg (M 2 1 - M 1 2), sq_nonneg (M 1 0 + M 0 1), sq_nonneg (M 2 0 + M 0 2)]

/-- Positivity of the branch-1 unnormalized quaternion under the argmax
conditions selecting branch 1. -/
lemma branch1_pos (M : Mat3R)
    (hn0 : ¬(M 0 0 ≥ M 1 1 ∧ M 0 0 ≥ M 2 2 ∧ M 0 0 ≥ M 0 0 + M 1 1 + M 2 2))
    (h1 : M 1 1 ≥ M 2 2) (h2 : M 1 1 ≥ M 0 0 + M 1 1 + M 2 2) :
    0 < quatNormSq (quatFromMatBranch1 M) := by
  have hy : 0 < 1 - (M 0 0 + M 1 1 + M 2 2) + 2 * M 1 1 := by
    rcases not_and_or.mp hn0 with hn | hn
    · linarith [not_le.mp hn]
    rcases not_and_or.mp hn with hn2 | hn2
    · linarith [not_le.mp hn2]
    · linarith [not_le.mp hn2]
  have hy2 : 0 < (1 - (M 0 0 + M 1 1 + M 2 2) + 2 * M 1 1) ^ 2 := pow_pos hy 2
  simp only [quatNormSq, quatFromMatBranch1]
  nlinarith [sq_nonneg (M 0 2 - M 2 0), sq_nonneg (M 0 1 + M 1 0), sq_nonneg (M 2 1 + M 1 2)]

/-- Positivity of the branch-2 unnormalized quaternion under the argmax
conditions selecting branch 2; uses the unit-row bound `m00 ≤ 1`. -/
lemma branch2_pos (M : Mat3R) (horth : M.transpose * M = 1)
    (hn1 : ¬(M 1 1 ≥ M 2 2 ∧ M 1 1 ≥ M 0 0 + M 1 1 + M 2 2))
    (h2 : M 2 2 ≥ M 0 0 + M 1 1 + M 2 2) :
    0 < quatNormSq (quatFromMatBranch2 M) := by
  obtain ⟨hb0, _, _⟩ := diag_le_one M horth
  have hz : 0 < 1 - (M 0 0 + M 1 1 + M 2 2) + 2 * M 2 2 := by
    rcases not_and_or.mp hn1 with hn | hn
    · linarith [not_le.mp hn]
    · linarith [not_le.mp hn]
  have hz2 : 0 < (1 - (M 0 0 + M 1 1 + M 2 2) + 2 * M 2 2) ^ 2 := pow_pos hz 2
  simp only [quatNormSq, quatFromMatBranch2]
  nlinarith [sq_nonneg (M 1 0 - M 0 1), sq_nonneg (M 0 2 + M 2 0), sq_nonneg (M 1 2 + M 2 1)]

/-- Positivity of the branch-3 unnormalized quaternion under the argmax
conditions selecting branch 3. -/
lemma branch3_pos (M : Mat3R)
    (hn0 : ¬(M 0 0 ≥ M 1 1 ∧ M 0 0 ≥ M 2 2 ∧ M 0 0 ≥ M 0 0 + M 1 1 + M 2 2))
    (hn1 : ¬(M 1 1 ≥ M 2 2 ∧ M 1 1 ≥ M 0 0 + M 1 1 + M 2 2))
    (hn2 : ¬ M 2 2 ≥ M 0 0 + M 1 1 + M 2 2) :
    0 < quatNormSq (quatFromMatBranch3 M) := by
  have ht2 : M 2 2 < M 0 0 + M 1 1 + M 2 2 := not_le.mp hn2
  have ht1 : M 1 1 < M 0 0 + M 1 1 + M 2 2 := by
    rcases not_and_or.mp hn1 with hn | hn
    · linarith [not_le.mp hn]
    · linarith [not_le.mp hn]
  have ht0 : M 0 0 < M 0 0 + M 1 1 + M 2 2 := by
    rcases not_and_or.mp hn0 with hn | hn
    · linarith [not_le.mp hn]
    rcases not_and_or.mp hn with hn' | hn'
    · linarith [not_le.mp hn']
    · linarith [not_le.mp hn']
  have hw : 0 < 1 + (M 0 0 + M 1 1 + M 2 2) := by linarith
  have hw2 : 0 < (1 + (M 0 0 + M 1 1 + M 2 2)) ^ 2 := pow_pos hw 2
  simp only [quatNormSq, quatFromMatBranch3]
  nlinarith [sq_nonneg (M 2 1 - M 1 2), sq_nonneg (M 0 2 - M 2 0), sq_nonneg (M 1 0 - M 0 1)]

/-- On an orthogonal determinant-one matrix, scipy's unnormalized
`from_matrix` quaternion has positive squared norm and its homogeneous
rotation matrix is the squared norm times the input. -/
lemma scipyFromMatrixUnnorm_spec (M : Mat3R) (horth : M.transpose * M = 1)
    (hdet : M.det = 1) :
    0 < quatNormSq (scipyFromMatrixUnnorm M) ∧
    quatRotHom (scipyFromMatrixUnnorm M) = quatNormSq (scipyFromMatrixUnnorm M) • M := by
  unfold scipyFromMatrixUnnorm argmaxChoice
  split_ifs with hb0 hb1 hb2
  · exact ⟨branch0_pos M hb0.1 hb0.2.1 hb0.2.2, branch0_hom M horth hdet⟩
  · exact ⟨branch1_pos M hb0 hb1.1 hb1.2, branch1_hom M horth hdet⟩
  · exact ⟨branch2_pos M horth hb1 hb2, branch2_hom M horth hdet⟩
  · exact ⟨branch3_pos M hb0 hb1 hb2, branch3_hom M horth hdet⟩

/-- Componentwise division of a quaternion scales its squared norm by the
inverse squared divisor (also valid for divisor 0 in Lean's convention). -/
lemma quatNormSq_div (c : ℝ) (u : Quat ℝ) :
    quatNormSq ⟨u.w / c, u.x / c, u.y / c, u.z / c⟩ = quatNormSq u / c ^ 2 := by
  simp only [quatNormSq, div_pow, division_def]
  ring

/-- The homogeneous rotation form is degree-2 homogeneous: dividing the
quaternion componentwise divides the form by the squared divisor. -/
lemma quatRotHom_div (c : ℝ) (u : Quat ℝ) :
    quatRotHom ⟨u.w / c, u.x / c, u.y / c, u.z / c⟩ = (c ^ 2)⁻¹ • quatRotHom u := by
  ext k l
  fin_cases k <;> fin_cases l <;>
    · simp [quatRotHom, Matrix.smul_apply, Matrix.of_apply, Matrix.cons_val',
        Matrix.cons_val_zero, Matrix.cons_val_one, Matrix.head_cons, Matrix.empty_val',
        Matrix.cons_val_fin_one, Matrix.head_fin_const, Matrix.vecHead, Matrix.vecTail,
        smul_eq_mul, div_pow, division_def]
      ring

/-- Normalizing a quaternion of positive squared norm yields a unit
quaternion. -/
lemma quatNormalize_unit (u : Quat ℝ) (hN : 0 < quatNormSq u) :
    quatNormSq (quatNormalize u) = 1 := by
  have hs : Real.sqrt (quatNormSq u) ^ 2 = quatNormSq u := Real.sq_sqrt hN.le
  show quatNormSq ⟨u.w / _, u.x / _, u.y / _, u.z / _⟩ = 1
  rw [quatNormSq_div, hs, div_self (ne_of_gt hN)]

/-- Normalizing the quaternion divides the homogeneous rotation form by
the squared norm. -/
lemma quatRotHom_normalize (u : Quat ℝ) (hN : 0 < quatNormSq u) :
    quatRotHom (quatNormalize u) = (quatNormSq u)⁻¹ • quatRotHom u := by
  have hs : Real.sqrt (quatNormSq u) ^ 2 = quatNormSq u := Real.sq_sqrt hN.le
  show quatRotHom ⟨u.w / _, u.x / _, u.y / _, u.z / _⟩ = _
  rw [quatRotHom_div, hs]

/-- Scipy's `from_matrix` quaternion on an orthogonal determinant-one
matrix: unit norm, and its homogeneous rotation matrix is the input. -/
lemma scipyFromMatrixQuat_spec (M : Mat3R) (horth : M.transpose * M = 1)
    (hdet : M.det = 1) :
    quatNormSq (scipyFromMatrixQuat M) = 1 ∧
    quatRotHom (scipyFromMatrixQuat M) = M := by
  obtain ⟨hN, hhom⟩ := scipyFromMatrixUnnorm_spec M horth hdet
  constructor
  · exact quatNormalize_unit _ hN
  · rw [scipyFromMatrixQuat, quatRotHom_normalize _ hN, hhom, smul_smul,
      inv_mul_cancel₀ (ne_of_gt hN), one_smul]

end GenieSim
namespace GenieSim

/-- On an already-ascending triple, the stable argsort is the identity
permutation. -/
lemma argsort3_asc (v : Fin 3 → ℝ) (h01 : v 0 ≤ v 1) (h12 : v 1 ≤ v 2) :
    argsort3 v = id := by
  simp [argsort3, h01, h12]

/-- Negating column 0 preserves orthonormality of the columns. -/
lemma fixHandedness_orth (vecs : Mat3R) (horth : vecs.transpose * vecs = 1) :
    (fixHandedness vecs).transpose * fixHandedness vecs = 1 := by
  unfold fixHandedness
  split_ifs with hd
  · have hDD : (Matrix.diagonal ![-1, 1, 1] : Mat3R) * Matrix.diagonal ![-1, 1, 1] = 1 := by
      rw [Matrix.diagonal_mul_diagonal]
      have : (fun i => (![-1, 1, 1] : Fin 3 → ℝ) i * ![-1, 1, 1] i) = fun _ => (1 : ℝ) := by
        funext i
        fin_cases i <;> norm_num
      rw [this, Matrix.diagonal_one]
    rw [Matrix.transpose_mul, Matrix.diagonal_transpose, Matrix.mul_assoc,
      ← Matrix.mul_assoc vecs.transpose, horth, Matrix.one_mul, hDD]
  · exact horth

/-- After the handedness fix the determinant is `+1`. -/
lemma fixHandedness_det (vecs : Mat3R) (horth : vecs.transpose * vecs = 1) :
    (fixHandedness vecs).det = 1 := by
  have hsq : vecs.det ^ 2 = 1 := by
    have h1 : (vecs.transpose * vecs).det = 1 := by rw [horth, Matrix.det_one]
    rwa [Matrix.det_mul, Matrix.det_transpose, ← sq] at h1
  have hcases : vecs.det = 1 ∨ vecs.det = -1 := by
    rcases mul_eq_zero.mp (show (vecs.det - 1) * (vecs.det + 1) = 0 by
      linear_combination hsq) with h | h
    · left; linarith
    · right; linarith
  unfold fixHandedness
  split_ifs with hd
  · have hdetD : (Matrix.diagonal ![-1, 1, 1] : Mat3R).det = -1 := by
      rw [Matrix.det_diagonal]
      simp [Fin.prod_univ_three]
    rw [Matrix.det_mul, hdetD]
    rcases hcases with h | h
    · linarith
    · rw [h]; norm_num
  · rcases hcases with h | h
    · exact h
    · exact absurd (by rw [h]; norm_num : vecs.det < 0) hd

/-- C5: given the `np.linalg.eigh` contract — ascending eigenvalues and an
orthonormal matrix of corresponding eigenvectors of a symmetric tensor —
the post-processing of `diagonalize_inertia` returns the eigenvalues in
ascending order, an orthogonal eigenvector matrix of determinant `+1`
whose columns are still eigenvectors for the returned values, and a
scalar-first quaternion of unit norm whose rotation matrix is exactly the
returned matrix. -/
theorem C5_diagonalize_inertia (A : Mat3R) (vals : Fin 3 → ℝ) (vecs : Mat3R)
    (hA : A.IsSymm)
    (hasc01 : vals 0 ≤ vals 1) (hasc12 : vals 1 ≤ vals 2)
    (horth : vecs.transpose * vecs = 1)
    (heig : ∀ j, A.mulVec (fun k => vecs k j) = vals j • fun k => vecs k j) :
    ((diagonalize_inertia_post vals vecs).1 0 ≤ (diagonalize_inertia_post vals vecs).1 1 ∧
      (diagonalize_inertia_post vals vecs).1 1 ≤ (diagonalize_inertia_post vals vecs).1 2) ∧
    ((diagonalize_inertia_post vals vecs).2.1.transpose *
      (diagonalize_inertia_post vals vecs).2.1 = 1) ∧
    (diagonalize_inertia_post vals vecs).2.1.det = 1 ∧
    (∀ j, A.mulVec (fun k => (diagonalize_inertia_post vals vecs).2.1 k j) =
      (diagonalize_inertia_post vals vecs).1 j •
        fun k => (diagonalize_inertia_post vals vecs).2.1 k j) ∧
    quatNormSq (diagonalize_inertia_post vals vecs).2.2 = 1 ∧
    quatRotHom (diagonalize_inertia_post vals vecs).2.2 =
      (diagonalize_inertia_post vals vecs).2.1 := by
  have hid : argsort3 vals = id := argsort3_asc vals hasc01 hasc12
  have hpost : diagonalize_inertia_post vals vecs =
      (vals, fixHandedness vecs, scipyFromMatrixQuat (fixHandedness vecs)) := by
    unfold diagonalize_inertia_post
    rw [hid]
    rfl
  rw [hpost]
  have hFo : (fixHandedness vecs).transpose * fixHandedness vecs = 1 :=
    fixHandedness_orth vecs horth
  have hFd : (fixHandedness vecs).det = 1 := fixHandedness_det vecs horth
  obtain ⟨hq1, hq2⟩ := scipyFromMatrixQuat_spec (fixHandedness vecs) hFo hFd
  refine ⟨⟨hasc01, hasc12⟩, hFo, hFd, ?_, hq1, hq2⟩
  intro j
  by_cases hd : vecs.det < 0
  · have hFeq : fixHandedness vecs = vecs * Matrix.diagonal ![-1, 1, 1] := by
      rw [fixHandedness, if_pos hd]
    have hcol : (fun k => (fixHandedness vecs) k j)
        = ((![-1, 1, 1] : Fin 3 → ℝ) j) • (fun k => vecs k j) := by
      funext k
      rw [hFeq, Matrix.mul_diagonal]
      simp [mul_comm]
    rw [hcol, Matrix.mulVec_smul, heig j, smul_comm]
  · have hFeq : fixHandedness vecs = vecs := by
      rw [fixHandedness, if_neg hd]
    rw [hFeq]
    exact heig j

/-- C5 witness: the contract hypotheses hold for the diagonal tensor
`diag(1, 2, 3)` with eigenvalues `(1, 2, 3)` and the identity eigenvector
matrix, and the theorem yields the unit-norm quaternion and
determinant-one rotation for that input. -/
theorem C5_diagonalize_inertia_witness :
    (Matrix.diagonal ![1, 2, 3] : Mat3R).IsSymm ∧
    ((1 : Mat3R).transpose * 1 = 1) ∧
    quatNormSq (diagonalize_inertia_post ![1, 2, 3] 1).2.2 = 1 ∧
    quatRotHom (diagonalize_inertia_post ![1, 2, 3] 1).2.2 =
      (diagonalize_inertia_post ![1, 2, 3] 1).2.1 ∧
    (diagonalize_inertia_post ![1, 2, 3] 1).2.1.det = 1 := by
  have hA : (Matrix.diagonal ![1, 2, 3] : Mat3R).IsSymm := Matrix.isSymm_diagonal _
  have horth : ((1 : Mat3R)).transpose * 1 = 1 := by simp
  have h01 : (![1, 2, 3] : Fin 3 → ℝ) 0 ≤ ![1, 2, 3] 1 := by norm_num
  have h12 : (![1, 2, 3] : Fin 3 → ℝ) 1 ≤ ![1, 2, 3] 2 := by norm_num
  have heig : ∀ j, (Matrix.diagonal ![1, 2, 3] : Mat3R).mulVec (fun k => (1 : Mat3R) k j)
      = (![1, 2, 3] : Fin 3 → ℝ) j • fun k => (1 : Mat3R) k j := by
    intro j
    funext k
    fin_cases j <;> fin_cases k <;>
      simp [Matrix.mulVec, Matrix.diagonal, Matrix.one_apply, Matrix.dotProduct,
        Fin.sum_univ_three]
  have h := C5_diagonalize_inertia (Matrix.diagonal ![1, 2, 3]) ![1, 2, 3] 1
    hA h01 h12 horth heig
  exact ⟨hA, horth, h.2.2.2.2.1, h.2.2.2.2.2, h.2.2.1⟩

end GenieSim
